import Mathlib

/-!
Verification of the Ágora marketplace contract (`src/contracts/market/lib.rs`).

The contract state is embedded shallowly: ink `Mapping`s become functions
into `Option`, `AccountId` becomes `Nat`, and the `u32` machine integers
become `Nat` together with explicit checked arithmetic bounded by `2^32 - 1`.
Every internal operation (`_registrar`, `_comprar`, ...) is translated as a
function from the pre-state and its arguments to the pair of the returned
`Result` and the post-state; mutations that the Rust code performs before a
later early return are visible in the returned post-state, exactly as the
`&mut self` code leaves them.
-/

namespace Agora

/-- Account identifiers (`AccountId`) are modelled as naturals. -/
abbrev AccountId := Nat

/-- Largest value of a `u32`. -/
def U32MAX : Nat := 4294967295

/-- Rust `u32::checked_add`. -/
def checked_add (a b : Nat) : Option Nat :=
  if a + b ≤ U32MAX then some (a + b) else none

/-- Rust `u32::checked_sub`. -/
def checked_sub (a b : Nat) : Option Nat :=
  if b ≤ a then some (a - b) else none

/-- Source `Rol`: role of a user in the marketplace. -/
inductive Rol
  | Comprador
  | Vendedor
  | Ambos
deriving DecidableEq

/-- Source `Rol::es_comprador`. -/
def Rol.es_comprador : Rol → Bool
  | Rol.Comprador => true
  | Rol.Ambos => true
  | Rol.Vendedor => false

/-- Source `Rol::es_vendedor`. -/
def Rol.es_vendedor : Rol → Bool
  | Rol.Vendedor => true
  | Rol.Ambos => true
  | Rol.Comprador => false

/-- Source `Estado`: state of a purchase order. -/
inductive Estado
  | Pendiente
  | Enviado
  | Recibido
  | Cancelada
deriving DecidableEq

/-- Source `Producto`: a published listing. -/
structure Producto where
  vendedor : AccountId
  nombre : String
  descripcion : String
  precio : Nat
  stock : Nat
  categoria : String
deriving DecidableEq

/-- Source `Orden`: a purchase order (the iteration in `lib.rs`, without escrow). -/
structure Orden where
  comprador : AccountId
  vendedor : AccountId
  id_prod : Nat
  cantidad : Nat
  estado : Estado
deriving DecidableEq

/-- Source `CancelacionPendiente`: a pending cancellation request. -/
structure CancelacionPendiente where
  oid : Nat
  solicitante : AccountId
deriving DecidableEq

/-- Source `ReputacionUsuario`: (sum, count) rating accumulators per direction. -/
structure ReputacionUsuario where
  como_comprador : Nat × Nat
  como_vendedor : Nat × Nat
deriving DecidableEq

/-- Source `CalificacionOrden`: per-order already-rated flags. -/
structure CalificacionOrden where
  comprador_califico : Bool
  vendedor_califico : Bool
deriving DecidableEq

def MAX_NOMBRE_LEN : Nat := 64
def MAX_DESCRIPCION_LEN : Nat := 256
def MAX_CATEGORIA_LEN : Nat := 32

/-- Source `Error`: the contract's error enumeration (18 variants, as in `lib.rs`). -/
inductive Error
  | YaRegistrado
  | SinRegistro
  | SinPermiso
  | ParamInvalido
  | ProdInexistente
  | StockInsuf
  | OrdenInexistente
  | EstadoInvalido
  | IdOverflow
  | CancelacionYaPendiente
  | CancelacionInexistente
  | AutoCompraProhibida
  | OrdenCancelada
  | SolicitanteCancelacion
  | StockOverflow
  | YaCalificado
  | CalificacionInvalida
  | OrdenNoRecibida
deriving DecidableEq

/-- Pointwise insertion into a map, modelling `Mapping::insert`. -/
def mput {κ α : Type} [DecidableEq κ] (m : κ → Option α) (k : κ) (v : α) :
    κ → Option α :=
  fun x => if x = k then some v else m x

/-- Pointwise removal from a map, modelling `Mapping::remove`. -/
def mdel {κ α : Type} [DecidableEq κ] (m : κ → Option α) (k : κ) :
    κ → Option α :=
  fun x => if x = k then none else m x

/-- Lookup `self.calificaciones.get(oid).unwrap_or(..)`: per-order flags, defaulted. -/
def getCalif (m : Nat → Option CalificacionOrden) (oid : Nat) : CalificacionOrden :=
  (m oid).getD { comprador_califico := false, vendedor_califico := false }

/-- Lookup `self.reputaciones.get(quien).unwrap_or(..)`: reputation, defaulted. -/
def getRep (m : AccountId → Option ReputacionUsuario) (quien : AccountId) :
    ReputacionUsuario :=
  (m quien).getD { como_comprador := (0, 0), como_vendedor := (0, 0) }

/-- Lookup `self.calificaciones_por_categoria.get(cat).unwrap_or((0,0))`. -/
def getCat (m : String → Option (Nat × Nat)) (categoria : String) : Nat × Nat :=
  (m categoria).getD (0, 0)

/-- Source `Marketplace`: the contract storage of `lib.rs`. -/
structure Marketplace where
  roles : AccountId → Option Rol
  productos : Nat → Option Producto
  ordenes : Nat → Option Orden
  cancelaciones_pendientes : Nat → Option CancelacionPendiente
  reputaciones : AccountId → Option ReputacionUsuario
  calificaciones : Nat → Option CalificacionOrden
  calificaciones_por_categoria : String → Option (Nat × Nat)
  next_prod_id : Nat
  next_order_id : Nat
  usuarios_registrados : List AccountId

namespace Marketplace

/-- Constructor `Marketplace::new`. -/
def new : Marketplace where
  roles := fun _ => none
  productos := fun _ => none
  ordenes := fun _ => none
  cancelaciones_pendientes := fun _ => none
  reputaciones := fun _ => none
  calificaciones := fun _ => none
  calificaciones_por_categoria := fun _ => none
  next_prod_id := 1
  next_order_id := 1
  usuarios_registrados := []

/-- Source `_registrar`. -/
def _registrar (s : Marketplace) (caller : AccountId) (rol : Rol) :
    Except Error Unit × Marketplace :=
  if (s.roles caller).isSome then (Except.error Error.YaRegistrado, s)
  else
    (Except.ok (),
      { s with
        roles := mput s.roles caller rol
        usuarios_registrados := s.usuarios_registrados ++ [caller] })

/-- Source `_modificar_rol`. -/
def _modificar_rol (s : Marketplace) (caller : AccountId) (nuevo_rol : Rol) :
    Except Error Unit × Marketplace :=
  if (s.roles caller).isSome then
    (Except.ok (), { s with roles := mput s.roles caller nuevo_rol })
  else (Except.error Error.SinRegistro, s)

/-- Source `_publicar`. -/
def _publicar (s : Marketplace) (vendedor : AccountId) (nombre descripcion : String)
    (precio stock : Nat) (categoria : String) : Except Error Nat × Marketplace :=
  match s.roles vendedor with
  | none => (Except.error Error.SinRegistro, s)
  | some rol =>
    if rol.es_vendedor = false then (Except.error Error.SinPermiso, s)
    else if precio > 0 ∧ stock > 0 ∧ nombre ≠ "" ∧ nombre.length ≤ MAX_NOMBRE_LEN
        ∧ descripcion ≠ "" ∧ descripcion.length ≤ MAX_DESCRIPCION_LEN
        ∧ categoria ≠ "" ∧ categoria.length ≤ MAX_CATEGORIA_LEN then
      match checked_add s.next_prod_id 1 with
      | none => (Except.error Error.IdOverflow, s)
      | some nid =>
        (Except.ok s.next_prod_id,
          { s with
            productos := mput s.productos s.next_prod_id
              { vendedor := vendedor, nombre := nombre, descripcion := descripcion
                precio := precio, stock := stock, categoria := categoria }
            next_prod_id := nid })
    else (Except.error Error.ParamInvalido, s)

/-- Source `_comprar`.  Note the order of effects, faithful to the Rust code: the
listing's stock is decremented and written back *before* the order-id
checked increment, so an `IdOverflow` failure returns a state whose stock
is already reduced. -/
def _comprar (s : Marketplace) (comprador : AccountId) (id_prod cant : Nat) :
    Except Error Nat × Marketplace :=
  match s.roles comprador with
  | none => (Except.error Error.SinRegistro, s)
  | some rol =>
    if rol.es_comprador = false then (Except.error Error.SinPermiso, s)
    else if cant = 0 then (Except.error Error.ParamInvalido, s)
    else
      match s.productos id_prod with
      | none => (Except.error Error.ProdInexistente, s)
      | some producto =>
        if producto.vendedor = comprador then
          (Except.error Error.AutoCompraProhibida, s)
        else if producto.stock < cant then (Except.error Error.StockInsuf, s)
        else
          match checked_sub producto.stock cant with
          | none => (Except.error Error.StockInsuf, s)
          | some nuevo_stock =>
            -- the decremented stock is written back here; the order-id
            -- increment below can still fail, leaving this write in place
            match checked_add s.next_order_id 1 with
            | none =>
              (Except.error Error.IdOverflow,
                { s with
                  productos := mput s.productos id_prod
                    { producto with stock := nuevo_stock } })
            | some nid =>
              (Except.ok s.next_order_id,
                { s with
                  productos := mput s.productos id_prod
                    { producto with stock := nuevo_stock }
                  ordenes := mput s.ordenes s.next_order_id
                    { comprador := comprador, vendedor := producto.vendedor
                      id_prod := id_prod, cantidad := cant
                      estado := Estado.Pendiente }
                  next_order_id := nid
                  calificaciones := mput s.calificaciones s.next_order_id
                    { comprador_califico := false, vendedor_califico := false } })

/-- Source `_marcar_enviado`. -/
def _marcar_enviado (s : Marketplace) (caller : AccountId) (oid : Nat) :
    Except Error Unit × Marketplace :=
  match s.ordenes oid with
  | none => (Except.error Error.OrdenInexistente, s)
  | some orden =>
    if orden.vendedor = caller then
      if orden.estado = Estado.Cancelada then (Except.error Error.OrdenCancelada, s)
      else if orden.estado = Estado.Pendiente then
        (Except.ok (),
          { s with ordenes := mput s.ordenes oid { orden with estado := Estado.Enviado } })
      else (Except.error Error.EstadoInvalido, s)
    else (Except.error Error.SinPermiso, s)

/-- Source `_marcar_recibido`. -/
def _marcar_recibido (s : Marketplace) (caller : AccountId) (oid : Nat) :
    Except Error Unit × Marketplace :=
  match s.ordenes oid with
  | none => (Except.error Error.OrdenInexistente, s)
  | some orden =>
    if orden.comprador = caller then
      if orden.estado = Estado.Cancelada then (Except.error Error.OrdenCancelada, s)
      else if orden.estado = Estado.Enviado then
        (Except.ok (),
          { s with
            ordenes := mput s.ordenes oid { orden with estado := Estado.Recibido }
            cancelaciones_pendientes := mdel s.cancelaciones_pendientes oid })
      else (Except.error Error.EstadoInvalido, s)
    else (Except.error Error.SinPermiso, s)

/-- Source `_solicitar_cancelacion`.  The unilateral fast path (order `Pendiente`,
caller is the buyer) comes before the duplicate-request check. -/
def _solicitar_cancelacion (s : Marketplace) (caller : AccountId) (oid : Nat) :
    Except Error Unit × Marketplace :=
  match s.ordenes oid with
  | none => (Except.error Error.OrdenInexistente, s)
  | some orden =>
    if orden.estado = Estado.Cancelada then (Except.error Error.OrdenCancelada, s)
    else if caller = orden.comprador ∨ caller = orden.vendedor then
      if orden.estado = Estado.Pendiente ∨ orden.estado = Estado.Enviado then
        if orden.estado = Estado.Pendiente ∧ caller = orden.comprador then
          match s.productos orden.id_prod with
          | none => (Except.error Error.ProdInexistente, s)
          | some producto =>
            match checked_add producto.stock orden.cantidad with
            | none => (Except.error Error.StockOverflow, s)
            | some nuevo_stock =>
              (Except.ok (),
                { s with
                  productos := mput s.productos orden.id_prod
                    { producto with stock := nuevo_stock }
                  ordenes := mput s.ordenes oid { orden with estado := Estado.Cancelada }
                  cancelaciones_pendientes := mdel s.cancelaciones_pendientes oid })
        else if (s.cancelaciones_pendientes oid).isSome then
          (Except.error Error.CancelacionYaPendiente, s)
        else
          (Except.ok (),
            { s with
              cancelaciones_pendientes := mput s.cancelaciones_pendientes oid
                { oid := oid, solicitante := caller } })
      else (Except.error Error.EstadoInvalido, s)
    else (Except.error Error.SinPermiso, s)

/-- Source `es_otro_participante`. -/
def es_otro_participante (caller : AccountId) (orden : Orden)
    (solicitante : AccountId) : Prop :=
  (solicitante = orden.comprador ∧ caller = orden.vendedor)
    ∨ (solicitante = orden.vendedor ∧ caller = orden.comprador)

instance (caller : AccountId) (orden : Orden) (solicitante : AccountId) :
    Decidable (es_otro_participante caller orden solicitante) := by
  unfold es_otro_participante; infer_instance

/-- Source `_aceptar_cancelacion`. -/
def _aceptar_cancelacion (s : Marketplace) (caller : AccountId) (oid : Nat) :
    Except Error Unit × Marketplace :=
  match s.cancelaciones_pendientes oid with
  | none => (Except.error Error.CancelacionInexistente, s)
  | some cancelacion =>
    match s.ordenes oid with
    | none => (Except.error Error.OrdenInexistente, s)
    | some orden =>
      if orden.estado = Estado.Cancelada then (Except.error Error.OrdenCancelada, s)
      else if orden.estado = Estado.Pendiente ∨ orden.estado = Estado.Enviado then
        if caller = cancelacion.solicitante then
          (Except.error Error.SolicitanteCancelacion, s)
        else if es_otro_participante caller orden cancelacion.solicitante then
          match s.productos orden.id_prod with
          | none => (Except.error Error.ProdInexistente, s)
          | some producto =>
            match checked_add producto.stock orden.cantidad with
            | none => (Except.error Error.StockOverflow, s)
            | some nuevo_stock =>
              (Except.ok (),
                { s with
                  productos := mput s.productos orden.id_prod
                    { producto with stock := nuevo_stock }
                  ordenes := mput s.ordenes oid { orden with estado := Estado.Cancelada }
                  cancelaciones_pendientes := mdel s.cancelaciones_pendientes oid })
        else (Except.error Error.SinPermiso, s)
      else (Except.error Error.EstadoInvalido, s)

/-- Source `_rechazar_cancelacion`. -/
def _rechazar_cancelacion (s : Marketplace) (caller : AccountId) (oid : Nat) :
    Except Error Unit × Marketplace :=
  match s.cancelaciones_pendientes oid with
  | none => (Except.error Error.CancelacionInexistente, s)
  | some cancelacion =>
    match s.ordenes oid with
    | none => (Except.error Error.OrdenInexistente, s)
    | some orden =>
      if orden.estado = Estado.Cancelada then (Except.error Error.OrdenCancelada, s)
      else if orden.estado = Estado.Pendiente ∨ orden.estado = Estado.Enviado then
        if caller = cancelacion.solicitante then
          (Except.error Error.SolicitanteCancelacion, s)
        else if es_otro_participante caller orden cancelacion.solicitante then
          (Except.ok (),
            { s with cancelaciones_pendientes := mdel s.cancelaciones_pendientes oid })
        else (Except.error Error.SinPermiso, s)
      else (Except.error Error.EstadoInvalido, s)

/-- Source `_calificar_vendedor`.  Faithful to the mutation order of the Rust code:
the per-order flag is set and the seller's reputation updated before the
category-aggregate lookup and checked additions, so failures there return a
partially mutated state. -/
def _calificar_vendedor (s : Marketplace) (caller : AccountId) (oid puntos : Nat) :
    Except Error Unit × Marketplace :=
  match s.ordenes oid with
  | none => (Except.error Error.OrdenInexistente, s)
  | some orden =>
    if orden.comprador = caller then
      if orden.estado = Estado.Recibido then
        if 1 ≤ puntos ∧ puntos ≤ 5 then
          if (getCalif s.calificaciones oid).comprador_califico then
            (Except.error Error.YaCalificado, s)
          else
            -- the flag write precedes the checked additions, so an overflow
            -- (or a missing product at the category step) returns a state
            -- with the flag, and possibly the reputation, already updated
            match checked_add
                (getRep s.reputaciones orden.vendedor).como_vendedor.1 puntos with
            | none =>
              (Except.error Error.IdOverflow,
                { s with
                  calificaciones := mput s.calificaciones oid
                    { getCalif s.calificaciones oid with comprador_califico := true } })
            | some suma =>
              match checked_add
                  (getRep s.reputaciones orden.vendedor).como_vendedor.2 1 with
              | none =>
                (Except.error Error.IdOverflow,
                  { s with
                    calificaciones := mput s.calificaciones oid
                      { getCalif s.calificaciones oid with comprador_califico := true } })
              | some cuenta =>
                match s.productos orden.id_prod with
                | none =>
                  (Except.error Error.ProdInexistente,
                    { s with
                      calificaciones := mput s.calificaciones oid
                        { getCalif s.calificaciones oid with comprador_califico := true }
                      reputaciones := mput s.reputaciones orden.vendedor
                        { getRep s.reputaciones orden.vendedor with
                            como_vendedor := (suma, cuenta) } })
                | some producto =>
                  match checked_add
                      (getCat s.calificaciones_por_categoria producto.categoria).1
                      puntos with
                  | none =>
                    (Except.error Error.IdOverflow,
                      { s with
                        calificaciones := mput s.calificaciones oid
                          { getCalif s.calificaciones oid with comprador_califico := true }
                        reputaciones := mput s.reputaciones orden.vendedor
                          { getRep s.reputaciones orden.vendedor with
                              como_vendedor := (suma, cuenta) } })
                  | some csuma =>
                    match checked_add
                        (getCat s.calificaciones_por_categoria producto.categoria).2
                        1 with
                    | none =>
                      (Except.error Error.IdOverflow,
                        { s with
                          calificaciones := mput s.calificaciones oid
                            { getCalif s.calificaciones oid with comprador_califico := true }
                          reputaciones := mput s.reputaciones orden.vendedor
                            { getRep s.reputaciones orden.vendedor with
                                como_vendedor := (suma, cuenta) } })
                    | some ccuenta =>
                      (Except.ok (),
                        { s with
                          calificaciones := mput s.calificaciones oid
                            { getCalif s.calificaciones oid with comprador_califico := true }
                          reputaciones := mput s.reputaciones orden.vendedor
                            { getRep s.reputaciones orden.vendedor with
                                como_vendedor := (suma, cuenta) }
                          calificaciones_por_categoria :=
                            mput s.calificaciones_por_categoria producto.categoria
                              (csuma, ccuenta) })
        else (Except.error Error.CalificacionInvalida, s)
      else (Except.error Error.OrdenNoRecibida, s)
    else (Except.error Error.SinPermiso, s)

/-- Source `_calificar_comprador`.  The flag is set before the buyer-reputation
checked additions, so an overflow there returns a state with the flag set. -/
def _calificar_comprador (s : Marketplace) (caller : AccountId) (oid puntos : Nat) :
    Except Error Unit × Marketplace :=
  match s.ordenes oid with
  | none => (Except.error Error.OrdenInexistente, s)
  | some orden =>
    if orden.vendedor = caller then
      if orden.estado = Estado.Recibido then
        if 1 ≤ puntos ∧ puntos ≤ 5 then
          if (getCalif s.calificaciones oid).vendedor_califico then
            (Except.error Error.YaCalificado, s)
          else
            -- the flag write precedes the checked additions, so an overflow
            -- returns a state with the flag already set
            match checked_add
                (getRep s.reputaciones orden.comprador).como_comprador.1 puntos with
            | none =>
              (Except.error Error.IdOverflow,
                { s with
                  calificaciones := mput s.calificaciones oid
                    { getCalif s.calificaciones oid with vendedor_califico := true } })
            | some suma =>
              match checked_add
                  (getRep s.reputaciones orden.comprador).como_comprador.2 1 with
              | none =>
                (Except.error Error.IdOverflow,
                  { s with
                    calificaciones := mput s.calificaciones oid
                      { getCalif s.calificaciones oid with vendedor_califico := true } })
              | some cuenta =>
                (Except.ok (),
                  { s with
                    calificaciones := mput s.calificaciones oid
                      { getCalif s.calificaciones oid with vendedor_califico := true }
                    reputaciones := mput s.reputaciones orden.comprador
                      { getRep s.reputaciones orden.comprador with
                          como_comprador := (suma, cuenta) } })
        else (Except.error Error.CalificacionInvalida, s)
      else (Except.error Error.OrdenNoRecibida, s)
    else (Except.error Error.SinPermiso, s)

end Marketplace

/-!
The escrow-backed iteration.  `src/contracts/market/unit_tests.rs` and the
reports contract exercise a richer iteration of the marketplace whose
implementation is not under `src/`: its orders carry a `monto_total` field,
purchases are paid with the transferred value and checked for exact payment
(`PagoInsuficiente` / `PagoExcesivo`), and an escrow mapping
(`obtener_fondos_retenidos`) holds each order's total until receipt or
cancellation.  The definitions below model that missing iteration from the
spec (§4.3–§4.5) and from the behaviour its unit tests pin down, reusing the
`lib.rs` structure for everything the spec shares with it.
-/

/-- Modelled from the spec: the error type of the missing escrow iteration —
the 18 variants of `lib.rs` plus the exact-payment failures
`PagoInsuficiente` and `PagoExcesivo` asserted by its unit tests. -/
inductive ErrorE
  | YaRegistrado
  | SinRegistro
  | SinPermiso
  | ParamInvalido
  | ProdInexistente
  | StockInsuf
  | OrdenInexistente
  | EstadoInvalido
  | IdOverflow
  | CancelacionYaPendiente
  | CancelacionInexistente
  | AutoCompraProhibida
  | OrdenCancelada
  | SolicitanteCancelacion
  | StockOverflow
  | YaCalificado
  | CalificacionInvalida
  | OrdenNoRecibida
  | PagoInsuficiente
  | PagoExcesivo
deriving DecidableEq

/-- Modelled from the spec: the order record of the missing escrow iteration,
with the `monto_total` field (total amount fixed at purchase) that the
reports contract's tests construct. -/
structure OrdenE where
  comprador : AccountId
  vendedor : AccountId
  id_prod : Nat
  cantidad : Nat
  estado : Estado
  monto_total : Nat
deriving DecidableEq

/-- Modelled from the spec: the storage of the missing escrow iteration —
the `lib.rs` stores plus the escrow ledger `fondos_retenidos` mapping an
order id to the amount currently held for it. -/
structure MarketplaceE where
  roles : AccountId → Option Rol
  productos : Nat → Option Producto
  ordenes : Nat → Option OrdenE
  cancelaciones_pendientes : Nat → Option CancelacionPendiente
  reputaciones : AccountId → Option ReputacionUsuario
  calificaciones : Nat → Option CalificacionOrden
  calificaciones_por_categoria : String → Option (Nat × Nat)
  fondos_retenidos : Nat → Option Nat
  next_prod_id : Nat
  next_order_id : Nat
  usuarios_registrados : List AccountId

namespace MarketplaceE

/-- Modelled from the spec: initial state of the escrow iteration. -/
def new : MarketplaceE where
  roles := fun _ => none
  productos := fun _ => none
  ordenes := fun _ => none
  cancelaciones_pendientes := fun _ => none
  reputaciones := fun _ => none
  calificaciones := fun _ => none
  calificaciones_por_categoria := fun _ => none
  fondos_retenidos := fun _ => none
  next_prod_id := 1
  next_order_id := 1
  usuarios_registrados := []

/-- Accessor `obtener_fondos_retenidos`: the unit tests read 0 once the entry is gone. -/
def obtener_fondos_retenidos (s : MarketplaceE) (oid : Nat) : Nat :=
  (s.fondos_retenidos oid).getD 0

/-- Modelled from the spec: registration, as in `lib.rs`. -/
def registrarE (s : MarketplaceE) (caller : AccountId) (rol : Rol) :
    Except ErrorE Unit × MarketplaceE :=
  if (s.roles caller).isSome then (Except.error ErrorE.YaRegistrado, s)
  else
    (Except.ok (),
      { s with
        roles := mput s.roles caller rol
        usuarios_registrados := s.usuarios_registrados ++ [caller] })

/-- Modelled from the spec: role change, as in `lib.rs`. -/
def modificar_rolE (s : MarketplaceE) (caller : AccountId) (nuevo_rol : Rol) :
    Except ErrorE Unit × MarketplaceE :=
  if (s.roles caller).isSome then
    (Except.ok (), { s with roles := mput s.roles caller nuevo_rol })
  else (Except.error ErrorE.SinRegistro, s)

/-- Modelled from the spec: publish, as in `lib.rs`. -/
def publicarE (s : MarketplaceE) (vendedor : AccountId) (nombre descripcion : String)
    (precio stock : Nat) (categoria : String) : Except ErrorE Nat × MarketplaceE :=
  match s.roles vendedor with
  | none => (Except.error ErrorE.SinRegistro, s)
  | some rol =>
    if rol.es_vendedor = false then (Except.error ErrorE.SinPermiso, s)
    else if precio > 0 ∧ stock > 0 ∧ nombre ≠ "" ∧ nombre.length ≤ MAX_NOMBRE_LEN
        ∧ descripcion ≠ "" ∧ descripcion.length ≤ MAX_DESCRIPCION_LEN
        ∧ categoria ≠ "" ∧ categoria.length ≤ MAX_CATEGORIA_LEN then
      match checked_add s.next_prod_id 1 with
      | none => (Except.error ErrorE.IdOverflow, s)
      | some nid =>
        (Except.ok s.next_prod_id,
          { s with
            productos := mput s.productos s.next_prod_id
              { vendedor := vendedor, nombre := nombre, descripcion := descripcion
                precio := precio, stock := stock, categoria := categoria }
            next_prod_id := nid })
    else (Except.error ErrorE.ParamInvalido, s)

/-- Modelled from the spec: purchase with exact payment (§4.3).  `monto` is
the transferred value.  After the role, quantity, existence, self-purchase
and stock checks of `lib.rs`, the total `precio * cant` is computed and the
tendered amount must equal it exactly (`PagoInsuficiente` below,
`PagoExcesivo` above) before any mutation; then stock is reserved, the
order is created in `Pendiente` with `monto_total` fixed to the total, and
the escrow entry for the new order is recorded. -/
def comprarE (s : MarketplaceE) (comprador : AccountId) (id_prod cant monto : Nat) :
    Except ErrorE Nat × MarketplaceE :=
  match s.roles comprador with
  | none => (Except.error ErrorE.SinRegistro, s)
  | some rol =>
    if rol.es_comprador = false then (Except.error ErrorE.SinPermiso, s)
    else if cant = 0 then (Except.error ErrorE.ParamInvalido, s)
    else
      match s.productos id_prod with
      | none => (Except.error ErrorE.ProdInexistente, s)
      | some producto =>
        if producto.vendedor = comprador then
          (Except.error ErrorE.AutoCompraProhibida, s)
        else if producto.stock < cant then (Except.error ErrorE.StockInsuf, s)
        else if monto < producto.precio * cant then
          (Except.error ErrorE.PagoInsuficiente, s)
        else if producto.precio * cant < monto then
          (Except.error ErrorE.PagoExcesivo, s)
        else
          match checked_sub producto.stock cant with
          | none => (Except.error ErrorE.StockInsuf, s)
          | some nuevo_stock =>
            match checked_add s.next_order_id 1 with
            | none =>
              (Except.error ErrorE.IdOverflow,
                { s with
                  productos := mput s.productos id_prod
                    { producto with stock := nuevo_stock } })
            | some nid =>
              (Except.ok s.next_order_id,
                { s with
                  productos := mput s.productos id_prod
                    { producto with stock := nuevo_stock }
                  ordenes := mput s.ordenes s.next_order_id
                    { comprador := comprador, vendedor := producto.vendedor
                      id_prod := id_prod, cantidad := cant
                      estado := Estado.Pendiente
                      monto_total := producto.precio * cant }
                  next_order_id := nid
                  fondos_retenidos := mput s.fondos_retenidos s.next_order_id
                    (producto.precio * cant)
                  calificaciones := mput s.calificaciones s.next_order_id
                    { comprador_califico := false, vendedor_califico := false } })

/-- Modelled from the spec: mark shipped, as in `lib.rs` (escrow untouched). -/
def marcar_enviadoE (s : MarketplaceE) (caller : AccountId) (oid : Nat) :
    Except ErrorE Unit × MarketplaceE :=
  match s.ordenes oid with
  | none => (Except.error ErrorE.OrdenInexistente, s)
  | some orden =>
    if orden.vendedor = caller then
      if orden.estado = Estado.Cancelada then (Except.error ErrorE.OrdenCancelada, s)
      else if orden.estado = Estado.Pendiente then
        (Except.ok (),
          { s with ordenes := mput s.ordenes oid { orden with estado := Estado.Enviado } })
      else (Except.error ErrorE.EstadoInvalido, s)
    else (Except.error ErrorE.SinPermiso, s)

/-- Modelled from the spec (§4.4): mark received, as in `lib.rs`, and in the
same atomic step release the escrow entry (its amount is transferred to the
seller, which is outside the stored state) by removing it. -/
def marcar_recibidoE (s : MarketplaceE) (caller : AccountId) (oid : Nat) :
    Except ErrorE Unit × MarketplaceE :=
  match s.ordenes oid with
  | none => (Except.error ErrorE.OrdenInexistente, s)
  | some orden =>
    if orden.comprador = caller then
      if orden.estado = Estado.Cancelada then (Except.error ErrorE.OrdenCancelada, s)
      else if orden.estado = Estado.Enviado then
        (Except.ok (),
          { s with
            ordenes := mput s.ordenes oid { orden with estado := Estado.Recibido }
            fondos_retenidos := mdel s.fondos_retenidos oid
            cancelaciones_pendientes := mdel s.cancelaciones_pendientes oid })
      else (Except.error ErrorE.EstadoInvalido, s)
    else (Except.error ErrorE.SinPermiso, s)

/-- Modelled from the spec (§4.5): request cancellation, as in `lib.rs`, with
the unilateral buyer fast path additionally refunding the escrow entry to
the buyer (removing it). -/
def solicitar_cancelacionE (s : MarketplaceE) (caller : AccountId) (oid : Nat) :
    Except ErrorE Unit × MarketplaceE :=
  match s.ordenes oid with
  | none => (Except.error ErrorE.OrdenInexistente, s)
  | some orden =>
    if orden.estado = Estado.Cancelada then (Except.error ErrorE.OrdenCancelada, s)
    else if caller = orden.comprador ∨ caller = orden.vendedor then
      if orden.estado = Estado.Pendiente ∨ orden.estado = Estado.Enviado then
        if orden.estado = Estado.Pendiente ∧ caller = orden.comprador then
          match s.productos orden.id_prod with
          | none => (Except.error ErrorE.ProdInexistente, s)
          | some producto =>
            match checked_add producto.stock orden.cantidad with
            | none => (Except.error ErrorE.StockOverflow, s)
            | some nuevo_stock =>
              (Except.ok (),
                { s with
                  productos := mput s.productos orden.id_prod
                    { producto with stock := nuevo_stock }
                  ordenes := mput s.ordenes oid { orden with estado := Estado.Cancelada }
                  fondos_retenidos := mdel s.fondos_retenidos oid
                  cancelaciones_pendientes := mdel s.cancelaciones_pendientes oid })
        else if (s.cancelaciones_pendientes oid).isSome then
          (Except.error ErrorE.CancelacionYaPendiente, s)
        else
          (Except.ok (),
            { s with
              cancelaciones_pendientes := mput s.cancelaciones_pendientes oid
                { oid := oid, solicitante := caller } })
      else (Except.error ErrorE.EstadoInvalido, s)
    else (Except.error ErrorE.SinPermiso, s)

/-- Modelled from the spec: `es_otro_participante` for escrow-iteration orders. -/
def es_otro_participanteE (caller : AccountId) (orden : OrdenE)
    (solicitante : AccountId) : Prop :=
  (solicitante = orden.comprador ∧ caller = orden.vendedor)
    ∨ (solicitante = orden.vendedor ∧ caller = orden.comprador)

instance (caller : AccountId) (orden : OrdenE) (solicitante : AccountId) :
    Decidable (es_otro_participanteE caller orden solicitante) := by
  unfold es_otro_participanteE; infer_instance

/-- Modelled from the spec (§4.5): accept cancellation, as in `lib.rs`, and in
the same atomic step refund the escrow entry to the buyer (removing it). -/
def aceptar_cancelacionE (s : MarketplaceE) (caller : AccountId) (oid : Nat) :
    Except ErrorE Unit × MarketplaceE :=
  match s.cancelaciones_pendientes oid with
  | none => (Except.error ErrorE.CancelacionInexistente, s)
  | some cancelacion =>
    match s.ordenes oid with
    | none => (Except.error ErrorE.OrdenInexistente, s)
    | some orden =>
      if orden.estado = Estado.Cancelada then (Except.error ErrorE.OrdenCancelada, s)
      else if orden.estado = Estado.Pendiente ∨ orden.estado = Estado.Enviado then
        if caller = cancelacion.solicitante then
          (Except.error ErrorE.SolicitanteCancelacion, s)
        else if es_otro_participanteE caller orden cancelacion.solicitante then
          match s.productos orden.id_prod with
          | none => (Except.error ErrorE.ProdInexistente, s)
          | some producto =>
            match checked_add producto.stock orden.cantidad with
            | none => (Except.error ErrorE.StockOverflow, s)
            | some nuevo_stock =>
              (Except.ok (),
                { s with
                  productos := mput s.productos orden.id_prod
                    { producto with stock := nuevo_stock }
                  ordenes := mput s.ordenes oid { orden with estado := Estado.Cancelada }
                  fondos_retenidos := mdel s.fondos_retenidos oid
                  cancelaciones_pendientes := mdel s.cancelaciones_pendientes oid })
        else (Except.error ErrorE.SinPermiso, s)
      else (Except.error ErrorE.EstadoInvalido, s)

/-- Modelled from the spec (§4.5): reject cancellation, as in `lib.rs`; only
the request is removed, escrow and order untouched. -/
def rechazar_cancelacionE (s : MarketplaceE) (caller : AccountId) (oid : Nat) :
    Except ErrorE Unit × MarketplaceE :=
  match s.cancelaciones_pendientes oid with
  | none => (Except.error ErrorE.CancelacionInexistente, s)
  | some cancelacion =>
    match s.ordenes oid with
    | none => (Except.error ErrorE.OrdenInexistente, s)
    | some orden =>
      if orden.estado = Estado.Cancelada then (Except.error ErrorE.OrdenCancelada, s)
      else if orden.estado = Estado.Pendiente ∨ orden.estado = Estado.Enviado then
        if caller = cancelacion.solicitante then
          (Except.error ErrorE.SolicitanteCancelacion, s)
        else if es_otro_participanteE caller orden cancelacion.solicitante then
          (Except.ok (),
            { s with cancelaciones_pendientes := mdel s.cancelaciones_pendientes oid })
        else (Except.error ErrorE.SinPermiso, s)
      else (Except.error ErrorE.EstadoInvalido, s)

/-- Modelled from the spec: buyer rates seller, as in `lib.rs`. -/
def calificar_vendedorE (s : MarketplaceE) (caller : AccountId) (oid puntos : Nat) :
    Except ErrorE Unit × MarketplaceE :=
  match s.ordenes oid with
  | none => (Except.error ErrorE.OrdenInexistente, s)
  | some orden =>
    if orden.comprador = caller then
      if orden.estado = Estado.Recibido then
        if 1 ≤ puntos ∧ puntos ≤ 5 then
          if (getCalif s.calificaciones oid).comprador_califico then
            (Except.error ErrorE.YaCalificado, s)
          else
            -- the flag write precedes the checked additions, so an overflow
            -- (or a missing product at the category step) returns a state
            -- with the flag, and possibly the reputation, already updated
            match checked_add
                (getRep s.reputaciones orden.vendedor).como_vendedor.1 puntos with
            | none =>
              (Except.error ErrorE.IdOverflow,
                { s with
                  calificaciones := mput s.calificaciones oid
                    { getCalif s.calificaciones oid with comprador_califico := true } })
            | some suma =>
              match checked_add
                  (getRep s.reputaciones orden.vendedor).como_vendedor.2 1 with
              | none =>
                (Except.error ErrorE.IdOverflow,
                  { s with
                    calificaciones := mput s.calificaciones oid
                      { getCalif s.calificaciones oid with comprador_califico := true } })
              | some cuenta =>
                match s.productos orden.id_prod with
                | none =>
                  (Except.error ErrorE.ProdInexistente,
                    { s with
                      calificaciones := mput s.calificaciones oid
                        { getCalif s.calificaciones oid with comprador_califico := true }
                      reputaciones := mput s.reputaciones orden.vendedor
                        { getRep s.reputaciones orden.vendedor with
                            como_vendedor := (suma, cuenta) } })
                | some producto =>
                  match checked_add
                      (getCat s.calificaciones_por_categoria producto.categoria).1
                      puntos with
                  | none =>
                    (Except.error ErrorE.IdOverflow,
                      { s with
                        calificaciones := mput s.calificaciones oid
                          { getCalif s.calificaciones oid with comprador_califico := true }
                        reputaciones := mput s.reputaciones orden.vendedor
                          { getRep s.reputaciones orden.vendedor with
                              como_vendedor := (suma, cuenta) } })
                  | some csuma =>
                    match checked_add
                        (getCat s.calificaciones_por_categoria producto.categoria).2
                        1 with
                    | none =>
                      (Except.error ErrorE.IdOverflow,
                        { s with
                          calificaciones := mput s.calificaciones oid
                            { getCalif s.calificaciones oid with comprador_califico := true }
                          reputaciones := mput s.reputaciones orden.vendedor
                            { getRep s.reputaciones orden.vendedor with
                                como_vendedor := (suma, cuenta) } })
                    | some ccuenta =>
                      (Except.ok (),
                        { s with
                          calificaciones := mput s.calificaciones oid
                            { getCalif s.calificaciones oid with comprador_califico := true }
                          reputaciones := mput s.reputaciones orden.vendedor
                            { getRep s.reputaciones orden.vendedor with
                                como_vendedor := (suma, cuenta) }
                          calificaciones_por_categoria :=
                            mput s.calificaciones_por_categoria producto.categoria
                              (csuma, ccuenta) })
        else (Except.error ErrorE.CalificacionInvalida, s)
      else (Except.error ErrorE.OrdenNoRecibida, s)
    else (Except.error ErrorE.SinPermiso, s)

/-- Modelled from the spec: seller rates buyer, as in `lib.rs`. -/
def calificar_compradorE (s : MarketplaceE) (caller : AccountId) (oid puntos : Nat) :
    Except ErrorE Unit × MarketplaceE :=
  match s.ordenes oid with
  | none => (Except.error ErrorE.OrdenInexistente, s)
  | some orden =>
    if orden.vendedor = caller then
      if orden.estado = Estado.Recibido then
        if 1 ≤ puntos ∧ puntos ≤ 5 then
          if (getCalif s.calificaciones oid).vendedor_califico then
            (Except.error ErrorE.YaCalificado, s)
          else
            -- the flag write precedes the checked additions, so an overflow
            -- returns a state with the flag already set
            match checked_add
                (getRep s.reputaciones orden.comprador).como_comprador.1 puntos with
            | none =>
              (Except.error ErrorE.IdOverflow,
                { s with
                  calificaciones := mput s.calificaciones oid
                    { getCalif s.calificaciones oid with vendedor_califico := true } })
            | some suma =>
              match checked_add
                  (getRep s.reputaciones orden.comprador).como_comprador.2 1 with
              | none =>
                (Except.error ErrorE.IdOverflow,
                  { s with
                    calificaciones := mput s.calificaciones oid
                      { getCalif s.calificaciones oid with vendedor_califico := true } })
              | some cuenta =>
                (Except.ok (),
                  { s with
                    calificaciones := mput s.calificaciones oid
                      { getCalif s.calificaciones oid with vendedor_califico := true }
                    reputaciones := mput s.reputaciones orden.comprador
                      { getRep s.reputaciones orden.comprador with
                          como_comprador := (suma, cuenta) } })
        else (Except.error ErrorE.CalificacionInvalida, s)
      else (Except.error ErrorE.OrdenNoRecibida, s)
    else (Except.error ErrorE.SinPermiso, s)

end MarketplaceE

/-- States of the escrow iteration reachable from the fresh contract by the
public operations; every call is taken, its post-state being the state the
operation returns whether it succeeds or fails. -/
inductive ReachableE : MarketplaceE → Prop
  | init : ReachableE MarketplaceE.new
  | registrar (s : MarketplaceE) (caller : AccountId) (rol : Rol) :
      ReachableE s → ReachableE (s.registrarE caller rol).2
  | modificar_rol (s : MarketplaceE) (caller : AccountId) (rol : Rol) :
      ReachableE s → ReachableE (s.modificar_rolE caller rol).2
  | publicar (s : MarketplaceE) (v : AccountId) (n d : String) (p st : Nat) (c : String) :
      ReachableE s → ReachableE (s.publicarE v n d p st c).2
  | comprar (s : MarketplaceE) (c : AccountId) (pid cant monto : Nat) :
      ReachableE s → ReachableE (s.comprarE c pid cant monto).2
  | marcar_enviado (s : MarketplaceE) (c : AccountId) (oid : Nat) :
      ReachableE s → ReachableE (s.marcar_enviadoE c oid).2
  | marcar_recibido (s : MarketplaceE) (c : AccountId) (oid : Nat) :
      ReachableE s → ReachableE (s.marcar_recibidoE c oid).2
  | solicitar_cancelacion (s : MarketplaceE) (c : AccountId) (oid : Nat) :
      ReachableE s → ReachableE (s.solicitar_cancelacionE c oid).2
  | aceptar_cancelacion (s : MarketplaceE) (c : AccountId) (oid : Nat) :
      ReachableE s → ReachableE (s.aceptar_cancelacionE c oid).2
  | rechazar_cancelacion (s : MarketplaceE) (c : AccountId) (oid : Nat) :
      ReachableE s → ReachableE (s.rechazar_cancelacionE c oid).2
  | calificar_vendedor (s : MarketplaceE) (c : AccountId) (oid puntos : Nat) :
      ReachableE s → ReachableE (s.calificar_vendedorE c oid puntos).2
  | calificar_comprador (s : MarketplaceE) (c : AccountId) (oid puntos : Nat) :
      ReachableE s → ReachableE (s.calificar_compradorE c oid puntos).2

/-! Lookup lemmas for the map helpers. -/

theorem mput_same {κ α : Type} [DecidableEq κ] (m : κ → Option α) (k : κ) (v : α) :
    mput m k v k = some v := by
  simp [mput]

theorem mput_ne {κ α : Type} [DecidableEq κ] (m : κ → Option α) (k x : κ) (v : α)
    (h : x ≠ k) : mput m k v x = m x := by
  simp [mput, h]

theorem mdel_same {κ α : Type} [DecidableEq κ] (m : κ → Option α) (k : κ) :
    mdel m k k = none := by
  simp [mdel]

theorem mdel_ne {κ α : Type} [DecidableEq κ] (m : κ → Option α) (k x : κ)
    (h : x ≠ k) : mdel m k x = m x := by
  simp [mdel, h]

theorem checked_sub_some_inv (a b x : Nat) (h : checked_sub a b = some x) :
    b ≤ a ∧ x = a - b := by
  unfold checked_sub at h
  split at h <;> simp_all

theorem checked_add_some_inv (a b x : Nat) (h : checked_add a b = some x) :
    a + b ≤ U32MAX ∧ x = a + b := by
  unfold checked_add at h
  split at h <;> simp_all

theorem checked_add_some (a b : Nat) (h : a + b ≤ U32MAX) :
    checked_add a b = some (a + b) := by
  simp [checked_add, h]

theorem checked_add_none (a b : Nat) (h : U32MAX < a + b) :
    checked_add a b = none := by
  simp [checked_add, not_le.mpr h]

/-- The escrow entry of an order id matches its order's phase: present and
holding exactly `monto_total` while the order is `Pendiente` or `Enviado`,
absent otherwise (or when there is no order). -/
def FondosOk (s : MarketplaceE) (oid : Nat) : Prop :=
  s.fondos_retenidos oid =
    match s.ordenes oid with
    | some o =>
        if o.estado = Estado.Pendiente ∨ o.estado = Estado.Enviado then
          some o.monto_total
        else none
    | none => none

/-- Invariant of the escrow iteration: order ids at or above the counter are
unused, and every escrow entry matches its order's phase. -/
def EscrowInv (s : MarketplaceE) : Prop :=
  (∀ oid, s.next_order_id ≤ oid → s.ordenes oid = none) ∧ ∀ oid, FondosOk s oid

theorem escrowInv_congr (s t : MarketplaceE) (hto : t.ordenes = s.ordenes)
    (htf : t.fondos_retenidos = s.fondos_retenidos)
    (htn : t.next_order_id = s.next_order_id) (h : EscrowInv s) : EscrowInv t := by
  refine ⟨fun k hk => ?_, fun k => ?_⟩
  · rw [hto]
    exact h.1 k (htn ▸ hk)
  · have hf := h.2 k
    unfold FondosOk at hf ⊢
    rw [hto, htf]
    exact hf

theorem escrowInv_oid_lt (s : MarketplaceE) (oid : Nat) (o : OrdenE)
    (ho : s.ordenes oid = some o) (h : EscrowInv s) : oid < s.next_order_id := by
  by_contra hcon
  have h0 := h.1 oid (not_lt.mp hcon)
  rw [ho] at h0
  exact Option.noConfusion h0

/-- A `Pendiente` order moving to `Enviado` (same `monto_total`, escrow map
untouched) preserves the invariant. -/
theorem escrowInv_enviado (s t : MarketplaceE) (oid : Nat) (o1 o2 : OrdenE)
    (ho1 : s.ordenes oid = some o1) (h1 : o1.estado = Estado.Pendiente)
    (ho2e : o2.estado = Estado.Enviado) (hmt : o2.monto_total = o1.monto_total)
    (hto : t.ordenes = mput s.ordenes oid o2)
    (htf : t.fondos_retenidos = s.fondos_retenidos)
    (htn : t.next_order_id = s.next_order_id) (h : EscrowInv s) : EscrowInv t := by
  have hlt := escrowInv_oid_lt s oid o1 ho1 h
  refine ⟨fun k hk => ?_, fun k => ?_⟩
  · rw [htn] at hk
    rw [hto, mput_ne _ _ _ _ (by omega : k ≠ oid)]
    exact h.1 k hk
  · unfold FondosOk
    rw [hto, htf]
    by_cases hk : k = oid
    · subst hk
      rw [mput_same]
      have hf := h.2 k
      unfold FondosOk at hf
      rw [ho1] at hf
      simp [h1] at hf
      simp [ho2e, hmt, hf]
    · rw [mput_ne _ _ _ _ hk]
      exact h.2 k

/-- Resolving an order (its state leaves `Pendiente`/`Enviado`) while its
escrow entry is removed preserves the invariant. -/
theorem escrowInv_resolve (s t : MarketplaceE) (oid : Nat) (o1 o2 : OrdenE)
    (ho1 : s.ordenes oid = some o1)
    (hne : ¬(o2.estado = Estado.Pendiente ∨ o2.estado = Estado.Enviado))
    (hto : t.ordenes = mput s.ordenes oid o2)
    (htf : t.fondos_retenidos = mdel s.fondos_retenidos oid)
    (htn : t.next_order_id = s.next_order_id) (h : EscrowInv s) : EscrowInv t := by
  have hlt := escrowInv_oid_lt s oid o1 ho1 h
  refine ⟨fun k hk => ?_, fun k => ?_⟩
  · rw [htn] at hk
    rw [hto, mput_ne _ _ _ _ (by omega : k ≠ oid)]
    exact h.1 k hk
  · unfold FondosOk
    rw [hto, htf]
    by_cases hk : k = oid
    · subst hk
      rw [mput_same, mdel_same]
      simp [hne]
    · rw [mput_ne _ _ _ _ hk, mdel_ne _ _ _ hk]
      exact h.2 k

/-- Creating a fresh `Pendiente` order at the counter while recording its
escrow entry with its `monto_total` preserves the invariant. -/
theorem escrowInv_comprar (s t : MarketplaceE) (o2 : OrdenE)
    (hpend : o2.estado = Estado.Pendiente)
    (hto : t.ordenes = mput s.ordenes s.next_order_id o2)
    (htf : t.fondos_retenidos = mput s.fondos_retenidos s.next_order_id
      o2.monto_total)
    (htn : t.next_order_id = s.next_order_id + 1) (h : EscrowInv s) :
    EscrowInv t := by
  refine ⟨fun k hk => ?_, fun k => ?_⟩
  · rw [htn] at hk
    rw [hto, mput_ne _ _ _ _ (by omega : k ≠ s.next_order_id)]
    exact h.1 k (by omega)
  · unfold FondosOk
    rw [hto, htf]
    by_cases hk : k = s.next_order_id
    · subst hk
      rw [mput_same, mput_same]
      simp [hpend]
    · rw [mput_ne _ _ _ _ hk, mput_ne _ _ _ _ hk]
      exact h.2 k

theorem registrarE_inv (s : MarketplaceE) (c : AccountId) (rol : Rol)
    (h : EscrowInv s) : EscrowInv (s.registrarE c rol).2 := by
  unfold MarketplaceE.registrarE
  repeat' split
  all_goals exact escrowInv_congr s _ rfl rfl rfl h

theorem modificar_rolE_inv (s : MarketplaceE) (c : AccountId) (rol : Rol)
    (h : EscrowInv s) : EscrowInv (s.modificar_rolE c rol).2 := by
  unfold MarketplaceE.modificar_rolE
  repeat' split
  all_goals exact escrowInv_congr s _ rfl rfl rfl h

theorem publicarE_inv (s : MarketplaceE) (v : AccountId) (n d : String)
    (p st : Nat) (cat : String) (h : EscrowInv s) :
    EscrowInv (s.publicarE v n d p st cat).2 := by
  unfold MarketplaceE.publicarE
  repeat' split
  all_goals exact escrowInv_congr s _ rfl rfl rfl h

theorem rechazar_cancelacionE_inv (s : MarketplaceE) (c : AccountId) (oid : Nat)
    (h : EscrowInv s) : EscrowInv (s.rechazar_cancelacionE c oid).2 := by
  unfold MarketplaceE.rechazar_cancelacionE
  repeat' split
  all_goals exact escrowInv_congr s _ rfl rfl rfl h

theorem calificar_vendedorE_inv (s : MarketplaceE) (c : AccountId)
    (oid puntos : Nat) (h : EscrowInv s) :
    EscrowInv (s.calificar_vendedorE c oid puntos).2 := by
  unfold MarketplaceE.calificar_vendedorE
  repeat' split
  all_goals exact escrowInv_congr s _ rfl rfl rfl h

theorem calificar_compradorE_inv (s : MarketplaceE) (c : AccountId)
    (oid puntos : Nat) (h : EscrowInv s) :
    EscrowInv (s.calificar_compradorE c oid puntos).2 := by
  unfold MarketplaceE.calificar_compradorE
  repeat' split
  all_goals exact escrowInv_congr s _ rfl rfl rfl h

theorem comprarE_inv (s : MarketplaceE) (c : AccountId) (pid cant monto : Nat)
    (h : EscrowInv s) : EscrowInv (s.comprarE c pid cant monto).2 := by
  unfold MarketplaceE.comprarE
  rcases hrol : s.roles c with _ | rol
  · simpa [hrol] using h
  by_cases hrc : rol.es_comprador = false
  · simpa [hrol, hrc] using h
  by_cases hcant : cant = 0
  · simpa [hrol, hrc, hcant] using h
  rcases hprod : s.productos pid with _ | producto
  · simpa [hrol, hrc, hcant, hprod] using h
  by_cases hself : producto.vendedor = c
  · simpa [hrol, hrc, hcant, hprod, hself] using h
  by_cases hstock : producto.stock < cant
  · simpa [hrol, hrc, hcant, hprod, hself, hstock] using h
  by_cases hlow : monto < producto.precio * cant
  · simpa [hrol, hrc, hcant, hprod, hself, hstock, hlow] using h
  by_cases hhigh : producto.precio * cant < monto
  · simpa [hrol, hrc, hcant, hprod, hself, hstock, hlow, hhigh] using h
  rcases hsub : checked_sub producto.stock cant with _ | nuevo
  · simpa [hrol, hrc, hcant, hprod, hself, hstock, hlow, hhigh, hsub] using h
  rcases hadd : checked_add s.next_order_id 1 with _ | nid
  · simp [hrol, hrc, hcant, hprod, hself, hstock, hlow, hhigh, hsub, hadd]
    exact escrowInv_congr s _ rfl rfl rfl h
  obtain ⟨ha1, ha2⟩ := checked_add_some_inv _ _ _ hadd
  subst ha2
  simp [hrol, hprod, hsub, hadd, if_neg hrc, if_neg hcant, if_neg hself,
    if_neg hstock, if_neg hlow, if_neg hhigh]
  exact escrowInv_comprar s _
    { comprador := c, vendedor := producto.vendedor, id_prod := pid
      cantidad := cant, estado := Estado.Pendiente
      monto_total := producto.precio * cant } rfl rfl rfl rfl h

theorem marcar_enviadoE_inv (s : MarketplaceE) (c : AccountId) (oid : Nat)
    (h : EscrowInv s) : EscrowInv (s.marcar_enviadoE c oid).2 := by
  unfold MarketplaceE.marcar_enviadoE
  rcases ho : s.ordenes oid with _ | orden
  · simpa [ho] using h
  by_cases hv : orden.vendedor = c
  swap
  · simpa [ho, hv] using h
  by_cases hcanc : orden.estado = Estado.Cancelada
  · simpa [ho, hv, hcanc] using h
  by_cases hpend : orden.estado = Estado.Pendiente
  swap
  · simpa [ho, hv, hcanc, hpend] using h
  simp [ho, if_pos hv, if_neg hcanc, if_pos hpend]
  exact escrowInv_enviado s _ oid orden { orden with estado := Estado.Enviado }
    ho hpend rfl rfl rfl rfl rfl h

theorem marcar_recibidoE_inv (s : MarketplaceE) (c : AccountId) (oid : Nat)
    (h : EscrowInv s) : EscrowInv (s.marcar_recibidoE c oid).2 := by
  unfold MarketplaceE.marcar_recibidoE
  rcases ho : s.ordenes oid with _ | orden
  · simpa [ho] using h
  by_cases hv : orden.comprador = c
  swap
  · simpa [ho, hv] using h
  by_cases hcanc : orden.estado = Estado.Cancelada
  · simpa [ho, hv, hcanc] using h
  by_cases henv : orden.estado = Estado.Enviado
  swap
  · simpa [ho, hv, hcanc, henv] using h
  simp [ho, if_pos hv, if_neg hcanc, if_pos henv]
  exact escrowInv_resolve s _ oid orden { orden with estado := Estado.Recibido }
    ho (by simp) rfl rfl rfl h

theorem solicitar_cancelacionE_inv (s : MarketplaceE) (c : AccountId) (oid : Nat)
    (h : EscrowInv s) : EscrowInv (s.solicitar_cancelacionE c oid).2 := by
  unfold MarketplaceE.solicitar_cancelacionE
  rcases ho : s.ordenes oid with _ | orden
  · simpa [ho] using h
  by_cases hcanc : orden.estado = Estado.Cancelada
  · simpa [ho, hcanc] using h
  by_cases hperm : c = orden.comprador ∨ c = orden.vendedor
  swap
  · simpa [ho, hcanc, hperm] using h
  by_cases hpe : orden.estado = Estado.Pendiente ∨ orden.estado = Estado.Enviado
  swap
  · simpa [ho, hcanc, hperm, hpe] using h
  by_cases hfp : orden.estado = Estado.Pendiente ∧ c = orden.comprador
  · rcases hprod : s.productos orden.id_prod with _ | producto
    · simpa [ho, hcanc, hperm, hpe, hfp, hprod] using h
    rcases hadd : checked_add producto.stock orden.cantidad with _ | nuevo
    · simpa [ho, hcanc, hperm, hpe, hfp, hprod, hadd] using h
    simp [ho, hprod, hadd, if_neg hcanc, if_pos hperm, if_pos hpe, if_pos hfp]
    exact escrowInv_resolve s _ oid orden
      { orden with estado := Estado.Cancelada } ho (by simp) rfl rfl rfl h
  · by_cases hpend : (s.cancelaciones_pendientes oid).isSome = true
    · simpa [ho, hcanc, hperm, hpe, hfp, hpend] using h
    simp [ho, if_neg hcanc, if_pos hperm, if_pos hpe, if_neg hfp, if_neg hpend]
    exact escrowInv_congr s _ rfl rfl rfl h

theorem aceptar_cancelacionE_inv (s : MarketplaceE) (c : AccountId) (oid : Nat)
    (h : EscrowInv s) : EscrowInv (s.aceptar_cancelacionE c oid).2 := by
  unfold MarketplaceE.aceptar_cancelacionE
  rcases hcp : s.cancelaciones_pendientes oid with _ | canc
  · simpa [hcp] using h
  rcases ho : s.ordenes oid with _ | orden
  · simpa [hcp, ho] using h
  by_cases hcanc : orden.estado = Estado.Cancelada
  · simpa [hcp, ho, hcanc] using h
  by_cases hpe : orden.estado = Estado.Pendiente ∨ orden.estado = Estado.Enviado
  swap
  · simpa [hcp, ho, hcanc, hpe] using h
  by_cases hsol : c = canc.solicitante
  · simpa [hcp, ho, hcanc, hpe, hsol] using h
  by_cases hotro : MarketplaceE.es_otro_participanteE c orden canc.solicitante
  swap
  · simpa [hcp, ho, hcanc, hpe, hsol, hotro] using h
  rcases hprod : s.productos orden.id_prod with _ | producto
  · simpa [hcp, ho, hcanc, hpe, hsol, hotro, hprod] using h
  rcases hadd : checked_add producto.stock orden.cantidad with _ | nuevo
  · simpa [hcp, ho, hcanc, hpe, hsol, hotro, hprod, hadd] using h
  simp [hcp, ho, hprod, hadd, if_neg hcanc, if_pos hpe, if_neg hsol,
    if_pos hotro]
  exact escrowInv_resolve s _ oid orden { orden with estado := Estado.Cancelada }
    ho (by simp) rfl rfl rfl h

/-- Every reachable state of the escrow iteration satisfies the escrow
invariant. -/
theorem escrowInv_reachable (s : MarketplaceE) (h : ReachableE s) :
    EscrowInv s := by
  induction h with
  | init => exact ⟨fun k hk => rfl, fun k => rfl⟩
  | registrar s c rol hr ih => exact registrarE_inv s c rol ih
  | modificar_rol s c rol hr ih => exact modificar_rolE_inv s c rol ih
  | publicar s v n d p st cat hr ih => exact publicarE_inv s v n d p st cat ih
  | comprar s c pid cant monto hr ih => exact comprarE_inv s c pid cant monto ih
  | marcar_enviado s c oid hr ih => exact marcar_enviadoE_inv s c oid ih
  | marcar_recibido s c oid hr ih => exact marcar_recibidoE_inv s c oid ih
  | solicitar_cancelacion s c oid hr ih =>
    exact solicitar_cancelacionE_inv s c oid ih
  | aceptar_cancelacion s c oid hr ih => exact aceptar_cancelacionE_inv s c oid ih
  | rechazar_cancelacion s c oid hr ih =>
    exact rechazar_cancelacionE_inv s c oid ih
  | calificar_vendedor s c oid puntos hr ih =>
    exact calificar_vendedorE_inv s c oid puntos ih
  | calificar_comprador s c oid puntos hr ih =>
    exact calificar_compradorE_inv s c oid puntos ih

/-- The mutating public operations of the `lib.rs` contract, with their
arguments (the caller first). -/
inductive MOp
  | registrar : AccountId → Rol → MOp
  | modificar_rol : AccountId → Rol → MOp
  | publicar : AccountId → String → String → Nat → Nat → String → MOp
  | comprar : AccountId → Nat → Nat → MOp
  | marcar_enviado : AccountId → Nat → MOp
  | marcar_recibido : AccountId → Nat → MOp
  | solicitar_cancelacion : AccountId → Nat → MOp
  | aceptar_cancelacion : AccountId → Nat → MOp
  | rechazar_cancelacion : AccountId → Nat → MOp
  | calificar_vendedor : AccountId → Nat → Nat → MOp
  | calificar_comprador : AccountId → Nat → Nat → MOp

/-- Run a mutating operation, erasing the success value. -/
def runOp (s : Marketplace) : MOp → Except Error Unit × Marketplace
  | MOp.registrar c r => s._registrar c r
  | MOp.modificar_rol c r => s._modificar_rol c r
  | MOp.publicar c n d p st cat =>
      ((s._publicar c n d p st cat).1.map fun _ => (), (s._publicar c n d p st cat).2)
  | MOp.comprar c pid cant =>
      ((s._comprar c pid cant).1.map fun _ => (), (s._comprar c pid cant).2)
  | MOp.marcar_enviado c oid => s._marcar_enviado c oid
  | MOp.marcar_recibido c oid => s._marcar_recibido c oid
  | MOp.solicitar_cancelacion c oid => s._solicitar_cancelacion c oid
  | MOp.aceptar_cancelacion c oid => s._aceptar_cancelacion c oid
  | MOp.rechazar_cancelacion c oid => s._rechazar_cancelacion c oid
  | MOp.calificar_vendedor c oid p => s._calificar_vendedor c oid p
  | MOp.calificar_comprador c oid p => s._calificar_comprador c oid p

/-- The failure paths of `lib.rs` that return after a mutation has already
been written back: `_comprar` hits the order-id `checked_add` after the
stock write, and the rating operations hit their checked additions (and,
for the seller direction, the category product lookup) after the per-order
flag — and possibly the reputation — has been written. -/
def atomicityException : MOp → Error → Prop
  | MOp.comprar _ _ _, e => e = Error.IdOverflow
  | MOp.calificar_vendedor _ _ _, e =>
      e = Error.IdOverflow ∨ e = Error.ProdInexistente
  | MOp.calificar_comprador _ _ _, e => e = Error.IdOverflow
  | _, _ => False

/-- An `Except.map` only yields an error when its argument was that error. -/
theorem except_map_error {α β γ : Type} (r : Except γ α) (f : α → β) (e : γ)
    (h : r.map f = Except.error e) : r = Except.error e := by
  cases r <;> simp [Except.map] at h ⊢
  exact h

theorem registrar_err_frame (s : Marketplace) (c : AccountId) (rol : Rol)
    (r : Except Error Unit) (s2 : Marketplace) (h : s._registrar c rol = (r, s2))
    (e : Error) (hre : r = Except.error e) : s2 = s := by
  unfold Marketplace._registrar at h
  repeat' split at h
  all_goals simp_all

theorem modificar_rol_err_frame (s : Marketplace) (c : AccountId) (rol : Rol)
    (r : Except Error Unit) (s2 : Marketplace) (h : s._modificar_rol c rol = (r, s2))
    (e : Error) (hre : r = Except.error e) : s2 = s := by
  unfold Marketplace._modificar_rol at h
  repeat' split at h
  all_goals simp_all

theorem publicar_err_frame (s : Marketplace) (c : AccountId) (n d : String)
    (p st : Nat) (cat : String) (r : Except Error Nat) (s2 : Marketplace)
    (h : s._publicar c n d p st cat = (r, s2))
    (e : Error) (hre : r = Except.error e) : s2 = s := by
  unfold Marketplace._publicar at h
  repeat' split at h
  all_goals simp_all

theorem comprar_err_frame (s : Marketplace) (c : AccountId) (pid cant : Nat)
    (r : Except Error Nat) (s2 : Marketplace) (h : s._comprar c pid cant = (r, s2))
    (e : Error) (hre : r = Except.error e) (hne : e ≠ Error.IdOverflow) : s2 = s := by
  unfold Marketplace._comprar at h
  repeat' split at h
  all_goals simp_all

theorem marcar_enviado_err_frame (s : Marketplace) (c : AccountId) (oid : Nat)
    (r : Except Error Unit) (s2 : Marketplace) (h : s._marcar_enviado c oid = (r, s2))
    (e : Error) (hre : r = Except.error e) : s2 = s := by
  unfold Marketplace._marcar_enviado at h
  repeat' split at h
  all_goals simp_all

theorem marcar_recibido_err_frame (s : Marketplace) (c : AccountId) (oid : Nat)
    (r : Except Error Unit) (s2 : Marketplace) (h : s._marcar_recibido c oid = (r, s2))
    (e : Error) (hre : r = Except.error e) : s2 = s := by
  unfold Marketplace._marcar_recibido at h
  repeat' split at h
  all_goals simp_all

theorem solicitar_err_frame (s : Marketplace) (c : AccountId) (oid : Nat)
    (r : Except Error Unit) (s2 : Marketplace)
    (h : s._solicitar_cancelacion c oid = (r, s2))
    (e : Error) (hre : r = Except.error e) : s2 = s := by
  unfold Marketplace._solicitar_cancelacion at h
  repeat' split at h
  all_goals simp_all

theorem aceptar_err_frame (s : Marketplace) (c : AccountId) (oid : Nat)
    (r : Except Error Unit) (s2 : Marketplace)
    (h : s._aceptar_cancelacion c oid = (r, s2))
    (e : Error) (hre : r = Except.error e) : s2 = s := by
  unfold Marketplace._aceptar_cancelacion at h
  repeat' split at h
  all_goals simp_all

theorem rechazar_err_frame (s : Marketplace) (c : AccountId) (oid : Nat)
    (r : Except Error Unit) (s2 : Marketplace)
    (h : s._rechazar_cancelacion c oid = (r, s2))
    (e : Error) (hre : r = Except.error e) : s2 = s := by
  unfold Marketplace._rechazar_cancelacion at h
  repeat' split at h
  all_goals simp_all

theorem calificar_vendedor_err_frame (s : Marketplace) (c : AccountId)
    (oid puntos : Nat) (r : Except Error Unit) (s2 : Marketplace)
    (h : s._calificar_vendedor c oid puntos = (r, s2))
    (e : Error) (hre : r = Except.error e)
    (hne : e ≠ Error.IdOverflow) (hne2 : e ≠ Error.ProdInexistente) : s2 = s := by
  unfold Marketplace._calificar_vendedor at h
  repeat' split at h
  all_goals simp_all

theorem calificar_comprador_err_frame (s : Marketplace) (c : AccountId)
    (oid puntos : Nat) (r : Except Error Unit) (s2 : Marketplace)
    (h : s._calificar_comprador c oid puntos = (r, s2))
    (e : Error) (hre : r = Except.error e)
    (hne : e ≠ Error.IdOverflow) : s2 = s := by
  unfold Marketplace._calificar_comprador at h
  repeat' split at h
  all_goals simp_all

/-- Stock of listing `pid` in state `s` (0 when the listing is absent). -/
def stockOf (s : Marketplace) (pid : Nat) : Nat :=
  match s.productos pid with
  | some p => p.stock
  | none => 0

/-- Quantity that order `oid` currently reserves from listing `pid`: its
`cantidad` when it targets `pid` and is not `Cancelada`, else 0. -/
def qtyAt (s : Marketplace) (pid oid : Nat) : Nat :=
  match s.ordenes oid with
  | some o => if o.id_prod = pid ∧ o.estado ≠ Estado.Cancelada then o.cantidad else 0
  | none => 0

/-- Total quantity reserved from listing `pid` by the non-cancelled orders
(order ids all lie below the `next_order_id` counter). -/
def reservedQty (s : Marketplace) (pid : Nat) : Nat :=
  (Finset.range s.next_order_id).sum (qtyAt s pid)

/-- Order ids at or above the counter are unused. -/
def OrdersFresh (s : Marketplace) : Prop :=
  ∀ oid, s.next_order_id ≤ oid → s.ordenes oid = none

/-- One successful purchase or cancellation operation (unilateral buyer
cancel request or accepted negotiated cancel). -/
inductive CStep : Marketplace → Marketplace → Prop
  | comprar (s : Marketplace) (c : AccountId) (pid cant oid : Nat)
      (s2 : Marketplace) :
      s._comprar c pid cant = (Except.ok oid, s2) → CStep s s2
  | solicitar (s : Marketplace) (c : AccountId) (oid : Nat) (s2 : Marketplace) :
      s._solicitar_cancelacion c oid = (Except.ok (), s2) → CStep s s2
  | aceptar (s : Marketplace) (c : AccountId) (oid : Nat) (s2 : Marketplace) :
      s._aceptar_cancelacion c oid = (Except.ok (), s2) → CStep s s2

namespace Claims

open Marketplace

/-- C5: for a `Pendiente` order whose buyer calls `solicitar_cancelacion`,
no counter-party consent is needed: in one step the order's quantity is
restored to the listing's stock by checked addition — failing with
`StockOverflow` at the `u32` bound and otherwise succeeding — the order
becomes `Cancelada`, and any pending cancellation request for the order is
removed. -/
theorem C5_solicitar_fast_path (s : Marketplace) (caller : AccountId) (oid : Nat)
    (orden : Orden) (producto : Producto)
    (ho : s.ordenes oid = some orden)
    (hp : orden.estado = Estado.Pendiente)
    (hc : caller = orden.comprador)
    (hprod : s.productos orden.id_prod = some producto) :
    (producto.stock + orden.cantidad ≤ U32MAX →
      (s._solicitar_cancelacion caller oid).1 = Except.ok () ∧
      (s._solicitar_cancelacion caller oid).2.productos orden.id_prod =
        some { producto with stock := producto.stock + orden.cantidad } ∧
      (s._solicitar_cancelacion caller oid).2.ordenes oid =
        some { orden with estado := Estado.Cancelada } ∧
      (s._solicitar_cancelacion caller oid).2.cancelaciones_pendientes oid = none) ∧
    (U32MAX < producto.stock + orden.cantidad →
      s._solicitar_cancelacion caller oid = (Except.error Error.StockOverflow, s)) := by
  constructor
  · intro hb
    simp only [Marketplace._solicitar_cancelacion, ho, hp, hc, hprod, checked_add,
      if_pos hb]
    simp [mput_same, mdel_same]
  · intro hb
    simp only [Marketplace._solicitar_cancelacion, ho, hp, hc, hprod, checked_add,
      if_neg (not_le.mpr hb)]
    simp

/-- C1 (amended): if a mutating operation returns an error, the resulting
state equals the starting state, EXCEPT on the failure paths that `lib.rs`
reaches only after a write-back: `comprar` returning `IdOverflow` (the
listing's stock is already decremented), `calificar_vendedor` returning
`IdOverflow` or `ProdInexistente` after its precondition checks (the
per-order flag, and possibly the seller reputation, are already updated),
and `calificar_comprador` returning `IdOverflow` (the flag is already
set). -/
theorem C1_error_frame (s : Marketplace) (op : MOp) (e : Error)
    (he : (runOp s op).1 = Except.error e)
    (hx : ¬ atomicityException op e) :
    (runOp s op).2 = s := by
  cases op with
  | registrar c rol => exact registrar_err_frame s c rol _ _ rfl e he
  | modificar_rol c rol => exact modificar_rol_err_frame s c rol _ _ rfl e he
  | publicar c n d p st cat =>
    exact publicar_err_frame s c n d p st cat _ _ rfl e
      (except_map_error _ _ e he)
  | comprar c pid cant =>
    exact comprar_err_frame s c pid cant _ _ rfl e
      (except_map_error _ _ e he) (fun hcon => hx (by simp [atomicityException, hcon]))
  | marcar_enviado c oid => exact marcar_enviado_err_frame s c oid _ _ rfl e he
  | marcar_recibido c oid => exact marcar_recibido_err_frame s c oid _ _ rfl e he
  | solicitar_cancelacion c oid => exact solicitar_err_frame s c oid _ _ rfl e he
  | aceptar_cancelacion c oid => exact aceptar_err_frame s c oid _ _ rfl e he
  | rechazar_cancelacion c oid => exact rechazar_err_frame s c oid _ _ rfl e he
  | calificar_vendedor c oid p =>
    exact calificar_vendedor_err_frame s c oid p _ _ rfl e he
      (fun hcon => hx (by simp [atomicityException, hcon]))
      (fun hcon => hx (by simp [atomicityException, hcon]))
  | calificar_comprador c oid p =>
    exact calificar_comprador_err_frame s c oid p _ _ rfl e he
      (fun hcon => hx (by simp [atomicityException, hcon]))

/-- Product used by the concrete counterexample states. -/
def cexProd : Producto :=
  { vendedor := 1, nombre := "p", descripcion := "d", precio := 100, stock := 10
    categoria := "c" }

/-- A state whose order-id counter is saturated, with buyer 2 registered and
listing 1 in stock. -/
def cexC1 : Marketplace :=
  { Marketplace.new with
    roles := fun a => if a = 2 then some Rol.Comprador else none
    productos := fun p => if p = 1 then some cexProd else none
    next_prod_id := 2
    next_order_id := U32MAX }

/-- C1 counterexample: with the order-id counter saturated, `comprar` fails
with `IdOverflow` yet the resulting state differs from the starting state —
listing 1's stock went from 10 to 9 — refuting the claim that an operation
returning an error always leaves the state unchanged. -/
theorem C1_counterexample :
    (runOp cexC1 (MOp.comprar 2 1 1)).1 = Except.error Error.IdOverflow ∧
    ((runOp cexC1 (MOp.comprar 2 1 1)).2.productos 1).map Producto.stock = some 9 ∧
    (cexC1.productos 1).map Producto.stock = some 10 ∧
    (runOp cexC1 (MOp.comprar 2 1 1)).2 ≠ cexC1 := by
  have h9 : ((runOp cexC1 (MOp.comprar 2 1 1)).2.productos 1).map Producto.stock
      = some 9 := rfl
  have h10 : (cexC1.productos 1).map Producto.stock = some 10 := rfl
  refine ⟨rfl, h9, h10, fun hcontra => ?_⟩
  rw [hcontra, h10] at h9
  simp at h9

/-- C1 witness: a plain error (already-registered user) does leave the state
unchanged. -/
theorem C1_error_frame_witness :
    (runOp cexC1 (MOp.registrar 2 Rol.Comprador)).1 = Except.error Error.YaRegistrado
      ∧ (runOp cexC1 (MOp.registrar 2 Rol.Comprador)).2 = cexC1 :=
  ⟨rfl, C1_error_frame cexC1 (MOp.registrar 2 Rol.Comprador) Error.YaRegistrado rfl
    (by simp [atomicityException])⟩

/-- C6: `Recibido` and `Cancelada` are terminal: for an order in either
state, every operation that requires a non-terminal order state
(`marcar_enviado`, `marcar_recibido`, `solicitar_cancelacion`,
`aceptar_cancelacion`, `rechazar_cancelacion`) fails, for every caller, and
leaves the whole state — in particular the order — unchanged. -/
theorem C6_terminal_states (s : Marketplace) (oid : Nat) (orden : Orden)
    (ho : s.ordenes oid = some orden)
    (ht : orden.estado = Estado.Recibido ∨ orden.estado = Estado.Cancelada)
    (caller : AccountId) :
    ((∃ e, (s._marcar_enviado caller oid).1 = Except.error e) ∧
      (s._marcar_enviado caller oid).2 = s) ∧
    ((∃ e, (s._marcar_recibido caller oid).1 = Except.error e) ∧
      (s._marcar_recibido caller oid).2 = s) ∧
    ((∃ e, (s._solicitar_cancelacion caller oid).1 = Except.error e) ∧
      (s._solicitar_cancelacion caller oid).2 = s) ∧
    ((∃ e, (s._aceptar_cancelacion caller oid).1 = Except.error e) ∧
      (s._aceptar_cancelacion caller oid).2 = s) ∧
    ((∃ e, (s._rechazar_cancelacion caller oid).1 = Except.error e) ∧
      (s._rechazar_cancelacion caller oid).2 = s) := by
  refine ⟨?_, ?_, ?_, ?_, ?_⟩ <;>
    simp only [Marketplace._marcar_enviado, Marketplace._marcar_recibido,
      Marketplace._solicitar_cancelacion, Marketplace._aceptar_cancelacion,
      Marketplace._rechazar_cancelacion, ho] <;>
    rcases hcp : s.cancelaciones_pendientes oid with _ | canc <;>
    rcases ht with h | h <;>
    simp [h] <;>
    repeat' split <;>
    simp_all

/-- Received order used by the C6 witness. -/
def ordRecibida : Orden :=
  { comprador := 2, vendedor := 1, id_prod := 1, cantidad := 3
    estado := Estado.Recibido }

/-- A state containing order 1 in the terminal state `Recibido`. -/
def sRecibida : Marketplace :=
  { Marketplace.new with
    roles := fun a => if a = 2 then some Rol.Comprador else none
    productos := fun p => if p = 1 then some cexProd else none
    ordenes := fun o => if o = 1 then some ordRecibida else none
    next_prod_id := 2
    next_order_id := 2 }

/-- C6 witness: on a concrete `Recibido` order, `marcar_enviado` and
`solicitar_cancelacion` by the seller both fail and change nothing. -/
theorem C6_terminal_states_witness :
    (∃ e, (sRecibida._marcar_enviado 1 1).1 = Except.error e) ∧
    (sRecibida._marcar_enviado 1 1).2 = sRecibida ∧
    (sRecibida._solicitar_cancelacion 1 1).2 = sRecibida := by
  have h := C6_terminal_states sRecibida 1 ordRecibida rfl (Or.inl rfl) 1
  exact ⟨h.1.1, h.1.2, h.2.2.1.2⟩

/-- C10: a buyer's `solicitar_cancelacion` on a `Pendiente` order that
already carries a seller-filed pending cancellation request does not fail
with `CancelacionYaPendiente`: the unilateral fast path runs first, the
order is cancelled immediately, stock is restored, and the seller's pending
request is silently deleted. -/
theorem C10_fast_path_precedence (s : Marketplace) (oid : Nat) (orden : Orden)
    (producto : Producto) (canc : CancelacionPendiente)
    (ho : s.ordenes oid = some orden)
    (hp : orden.estado = Estado.Pendiente)
    (_hcp : s.cancelaciones_pendientes oid = some canc)
    (_hsol : canc.solicitante = orden.vendedor)
    (hprod : s.productos orden.id_prod = some producto)
    (hb : producto.stock + orden.cantidad ≤ U32MAX) :
    (s._solicitar_cancelacion orden.comprador oid).1 = Except.ok () ∧
    (s._solicitar_cancelacion orden.comprador oid).2.ordenes oid =
      some { orden with estado := Estado.Cancelada } ∧
    (s._solicitar_cancelacion orden.comprador oid).2.cancelaciones_pendientes oid
      = none ∧
    (s._solicitar_cancelacion orden.comprador oid).2.productos orden.id_prod =
      some { producto with stock := producto.stock + orden.cantidad } := by
  simp only [Marketplace._solicitar_cancelacion, ho, hp, hprod, checked_add,
    if_pos hb]
  simp [mput_same, mdel_same]

/-- Pending order used by the concrete cancellation fixtures. -/
def ordPend : Orden :=
  { comprador := 2, vendedor := 1, id_prod := 1, cantidad := 3
    estado := Estado.Pendiente }

/-- Seller-filed cancellation request for order 1. -/
def cancVend : CancelacionPendiente := { oid := 1, solicitante := 1 }

/-- Pending order with a seller-filed request. -/
def sC10 : Marketplace :=
  { Marketplace.new with
    roles := fun a => if a = 2 then some Rol.Comprador else none
    productos := fun p => if p = 1 then some cexProd else none
    ordenes := fun o => if o = 1 then some ordPend else none
    cancelaciones_pendientes := fun o => if o = 1 then some cancVend else none
    next_prod_id := 2
    next_order_id := 2 }

/-- C10 witness: concrete run of the buyer's request over a seller-filed
pending request. -/
theorem C10_fast_path_precedence_witness :
    (sC10._solicitar_cancelacion 2 1).1 = Except.ok () ∧
    (sC10._solicitar_cancelacion 2 1).2.cancelaciones_pendientes 1 = none := by
  have h := C10_fast_path_precedence sC10 1 ordPend
    cexProd cancVend rfl rfl rfl rfl rfl (by decide)
  exact ⟨h.1, h.2.2.1⟩

/-- C9: a successful `rechazar_cancelacion` removes only the pending
request: every other store and counter is unchanged, other requests are
untouched, and afterwards the original requester may request cancellation
of the same order again successfully (given, for the buyer-fast-path case,
that the listing exists and restoring stock stays within the `u32` bound). -/
theorem C9_rechazar_only_clears_request (s : Marketplace) (caller : AccountId)
    (oid : Nat) (s2 : Marketplace)
    (h : s._rechazar_cancelacion caller oid = (Except.ok (), s2)) :
    s2.roles = s.roles ∧ s2.productos = s.productos ∧ s2.ordenes = s.ordenes ∧
    s2.reputaciones = s.reputaciones ∧ s2.calificaciones = s.calificaciones ∧
    s2.calificaciones_por_categoria = s.calificaciones_por_categoria ∧
    s2.next_prod_id = s.next_prod_id ∧ s2.next_order_id = s.next_order_id ∧
    s2.usuarios_registrados = s.usuarios_registrados ∧
    s2.cancelaciones_pendientes oid = none ∧
    (∀ k, k ≠ oid → s2.cancelaciones_pendientes k = s.cancelaciones_pendientes k) ∧
    (∀ canc orden producto, s.cancelaciones_pendientes oid = some canc →
      s.ordenes oid = some orden → s.productos orden.id_prod = some producto →
      producto.stock + orden.cantidad ≤ U32MAX →
      (s2._solicitar_cancelacion canc.solicitante oid).1 = Except.ok ()) := by
  unfold Marketplace._rechazar_cancelacion at h
  rcases hcp0 : s.cancelaciones_pendientes oid with _ | canc0 <;> rw [hcp0] at h
  · simp at h
  rcases ho0 : s.ordenes oid with _ | orden0 <;> rw [ho0] at h
  · simp at h
  by_cases hcanc : orden0.estado = Estado.Cancelada
  · simp [hcanc] at h
  by_cases hpe : orden0.estado = Estado.Pendiente ∨ orden0.estado = Estado.Enviado
  swap
  · simp [hcanc, hpe] at h
  by_cases hsolic : caller = canc0.solicitante
  · simp [hcanc, hpe, hsolic] at h
  by_cases hotro : es_otro_participante caller orden0 canc0.solicitante
  swap
  · simp [hcanc, hpe, hsolic, hotro] at h
  simp only [hcanc, hpe, hsolic, hotro, if_true, if_false, ite_true, ite_false,
    if_neg, if_pos, Prod.mk.injEq] at h
  obtain rfl := h.2
  refine ⟨rfl, rfl, rfl, rfl, rfl, rfl, rfl, rfl, rfl, mdel_same _ _,
    fun k hk => mdel_ne _ _ _ hk, ?_⟩
  intro canc orden producto hc1 ho1 hp1 hb1
  injection hc1 with hc1
  subst hc1
  injection ho1 with ho1
  subst ho1
  have hpart : canc0.solicitante = orden0.comprador ∨
      canc0.solicitante = orden0.vendedor := by
    rcases hotro with ⟨h1, h2⟩ | ⟨h1, h2⟩
    · exact Or.inl h1
    · exact Or.inr h1
  by_cases hfp : orden0.estado = Estado.Pendiente ∧
      canc0.solicitante = orden0.comprador
  · simp [Marketplace._solicitar_cancelacion, ho0, hcanc, hpe, hpart, hfp, hp1,
      hb1, checked_add]
  · simp [Marketplace._solicitar_cancelacion, ho0, hcanc, hpe, hpart, hfp,
      mdel_same]

/-- C9 witness: buyer 2 rejects the seller's request on order 1; only the
request disappears, and the seller can then re-request successfully. -/
theorem C9_rechazar_only_clears_request_witness :
    (sC10._rechazar_cancelacion 2 1).2.cancelaciones_pendientes 1 = none ∧
    (sC10._rechazar_cancelacion 2 1).2.ordenes = sC10.ordenes ∧
    (((sC10._rechazar_cancelacion 2 1).2)._solicitar_cancelacion 1 1).1 =
      Except.ok () := by
  obtain ⟨h1, h2, h3, h4, h5, h6, h7, h8, h9, h10, h11, h12⟩ :=
    C9_rechazar_only_clears_request sC10 2 1 (sC10._rechazar_cancelacion 2 1).2 rfl
  exact ⟨h10, h3, h12 cancVend ordPend cexProd rfl rfl rfl (by decide)⟩

/-- A successful buyer-rates-seller call records the buyer-side flag. -/
theorem calificar_vendedor_ok_flag (s : Marketplace) (caller : AccountId)
    (oid puntos : Nat) (r : Except Error Unit) (s2 : Marketplace)
    (h : s._calificar_vendedor caller oid puntos = (r, s2))
    (hok : r = Except.ok ()) :
    (s2.calificaciones oid).map CalificacionOrden.comprador_califico = some true := by
  unfold Marketplace._calificar_vendedor at h
  repeat' split at h
  all_goals injection h with h1 h2
  all_goals subst h1
  all_goals subst h2
  all_goals simp_all [mput_same]

/-- A successful seller-rates-buyer call records the seller-side flag. -/
theorem calificar_comprador_ok_flag (s : Marketplace) (caller : AccountId)
    (oid puntos : Nat) (r : Except Error Unit) (s2 : Marketplace)
    (h : s._calificar_comprador caller oid puntos = (r, s2))
    (hok : r = Except.ok ()) :
    (s2.calificaciones oid).map CalificacionOrden.vendedor_califico = some true := by
  unfold Marketplace._calificar_comprador at h
  repeat' split at h
  all_goals injection h with h1 h2
  all_goals subst h1
  all_goals subst h2
  all_goals simp_all [mput_same]

/-- With the buyer-side flag set, no buyer-rates-seller call can succeed or
mutate anything. -/
theorem calificar_vendedor_flag_blocks (s : Marketplace) (caller : AccountId)
    (oid puntos : Nat) (c : CalificacionOrden)
    (hc : s.calificaciones oid = some c) (hflag : c.comprador_califico = true)
    (r : Except Error Unit) (s2 : Marketplace)
    (h : s._calificar_vendedor caller oid puntos = (r, s2)) :
    (∃ e, r = Except.error e) ∧ s2 = s := by
  unfold Marketplace._calificar_vendedor at h
  repeat' split at h
  all_goals injection h with h1 h2
  all_goals subst h1
  all_goals subst h2
  all_goals simp_all [getCalif, mput_same]

/-- With the seller-side flag set, no seller-rates-buyer call can succeed or
mutate anything. -/
theorem calificar_comprador_flag_blocks (s : Marketplace) (caller : AccountId)
    (oid puntos : Nat) (c : CalificacionOrden)
    (hc : s.calificaciones oid = some c) (hflag : c.vendedor_califico = true)
    (r : Except Error Unit) (s2 : Marketplace)
    (h : s._calificar_comprador caller oid puntos = (r, s2)) :
    (∃ e, r = Except.error e) ∧ s2 = s := by
  unfold Marketplace._calificar_comprador at h
  repeat' split at h
  all_goals injection h with h1 h2
  all_goals subst h1
  all_goals subst h2
  all_goals simp_all [getCalif, mput_same]

/-- C7: rating is once-per-order-per-direction.  A successful rating sets the
direction's per-order flag; once that flag is set, any later call in that
direction on the same order fails and leaves the whole state — flags,
reputation accumulators and category accumulators included — unchanged, and
a genuine repeat rating attempt (the entitled caller, order `Recibido`,
score within 1..5) fails precisely with `YaCalificado`. -/
theorem C7_rating_once_per_direction (s : Marketplace) (oid : Nat)
    (caller : AccountId) (puntos : Nat) :
    ((s._calificar_vendedor caller oid puntos).1 = Except.ok () →
      ((s._calificar_vendedor caller oid puntos).2.calificaciones oid).map
        CalificacionOrden.comprador_califico = some true) ∧
    (∀ c, s.calificaciones oid = some c → c.comprador_califico = true →
      (∃ e, (s._calificar_vendedor caller oid puntos).1 = Except.error e) ∧
      (s._calificar_vendedor caller oid puntos).2 = s ∧
      (∀ orden, s.ordenes oid = some orden → caller = orden.comprador →
        orden.estado = Estado.Recibido → 1 ≤ puntos → puntos ≤ 5 →
        (s._calificar_vendedor caller oid puntos).1 =
          Except.error Error.YaCalificado)) ∧
    ((s._calificar_comprador caller oid puntos).1 = Except.ok () →
      ((s._calificar_comprador caller oid puntos).2.calificaciones oid).map
        CalificacionOrden.vendedor_califico = some true) ∧
    (∀ c, s.calificaciones oid = some c → c.vendedor_califico = true →
      (∃ e, (s._calificar_comprador caller oid puntos).1 = Except.error e) ∧
      (s._calificar_comprador caller oid puntos).2 = s ∧
      (∀ orden, s.ordenes oid = some orden → caller = orden.vendedor →
        orden.estado = Estado.Recibido → 1 ≤ puntos → puntos ≤ 5 →
        (s._calificar_comprador caller oid puntos).1 =
          Except.error Error.YaCalificado)) := by
  refine ⟨?_, ?_, ?_, ?_⟩
  · intro hok
    exact calificar_vendedor_ok_flag s caller oid puntos _ _ rfl hok
  · intro c hc hflag
    obtain ⟨he, hs⟩ :=
      calificar_vendedor_flag_blocks s caller oid puntos c hc hflag _ _ rfl
    refine ⟨he, hs, ?_⟩
    intro orden ho hcall hrec h1 h5
    simp [Marketplace._calificar_vendedor, ho, hcall, hrec, h1, h5, getCalif,
      hc, hflag]
  · intro hok
    exact calificar_comprador_ok_flag s caller oid puntos _ _ rfl hok
  · intro c hc hflag
    obtain ⟨he, hs⟩ :=
      calificar_comprador_flag_blocks s caller oid puntos c hc hflag _ _ rfl
    refine ⟨he, hs, ?_⟩
    intro orden ho hcall hrec h1 h5
    simp [Marketplace._calificar_comprador, ho, hcall, hrec, h1, h5, getCalif,
      hc, hflag]

/-- State for the rating witnesses: order 1 `Recibido`, buyer 2 has already
rated seller 1. -/
def sC7 : Marketplace :=
  { Marketplace.new with
    roles := fun a =>
      if a = 1 then some Rol.Vendedor
      else if a = 2 then some Rol.Comprador else none
    productos := fun p => if p = 1 then some cexProd else none
    ordenes := fun o => if o = 1 then some ordRecibida else none
    calificaciones := fun o =>
      if o = 1 then
        some { comprador_califico := true, vendedor_califico := false }
      else none
    reputaciones := fun a =>
      if a = 1 then
        some { como_comprador := (0, 0), como_vendedor := (5, 1) }
      else none
    next_prod_id := 2
    next_order_id := 2 }

/-- C7 witness: buyer 2's second rating of order 1 fails with `YaCalificado`
and changes nothing. -/
theorem C7_rating_once_per_direction_witness :
    (sC7._calificar_vendedor 2 1 4).2 = sC7 ∧
    (sC7._calificar_vendedor 2 1 4).1 = Except.error Error.YaCalificado := by
  obtain ⟨h1, h2, h3, h4⟩ := C7_rating_once_per_direction sC7 1 2 4
  obtain ⟨he, hs, hya⟩ := h2
    { comprador_califico := true, vendedor_califico := false } rfl rfl
  exact ⟨hs, hya ordRecibida rfl rfl rfl (by decide) (by decide)⟩

/-- Reputation on the verge of `u32` overflow, for the C8 fixtures. -/
def repAlta : ReputacionUsuario :=
  { como_comprador := (0, 0), como_vendedor := (U32MAX - 2, 1) }

/-- State where seller 1's rating sum is 3 below the `u32` bound and order 1
is `Recibido`, unrated. -/
def sC8 : Marketplace :=
  { Marketplace.new with
    roles := fun a =>
      if a = 1 then some Rol.Vendedor
      else if a = 2 then some Rol.Comprador else none
    productos := fun p => if p = 1 then some cexProd else none
    ordenes := fun o => if o = 1 then some ordRecibida else none
    calificaciones := fun o =>
      if o = 1 then
        some { comprador_califico := false, vendedor_califico := false }
      else none
    reputaciones := fun a => if a = 1 then some repAlta else none
    next_prod_id := 2
    next_order_id := 2 }

/-- C8 counterexample: when the checked addition into the rated seller's
(sum, count) accumulator overflows, `calificar_vendedor` fails with
`Error.IdOverflow` — the very same error value that id-counter exhaustion
in `publicar` produces — and the contract's error type has no separate
`ArithmeticOverflow` variant, refuting the claim that the operation fails
with a distinct `ArithmeticOverflow` error. -/
theorem C8_counterexample :
    (sC8._calificar_vendedor 2 1 5).1 = Except.error Error.IdOverflow ∧
    (Marketplace._publicar { sC8 with next_prod_id := U32MAX } 1 "p" "d" 1 1
      "c").1 = Except.error Error.IdOverflow :=
  ⟨rfl, rfl⟩

/-- C8 (amended): a rating call whose checked addition into the rated
participant's (sum, count) accumulator would overflow either component
fails with `IdOverflow` — the contract reuses its id-overflow variant for
rating-accumulator overflow; there is no dedicated `ArithmeticOverflow`
error.  (Both test suites assert exactly `Err(Error::IdOverflow)` here.) -/
theorem C8_rating_overflow_error (s : Marketplace) (caller : AccountId)
    (oid puntos : Nat) (orden : Orden) (rep : ReputacionUsuario)
    (ho : s.ordenes oid = some orden) :
    (caller = orden.comprador → orden.estado = Estado.Recibido →
      1 ≤ puntos → puntos ≤ 5 →
      (getCalif s.calificaciones oid).comprador_califico = false →
      s.reputaciones orden.vendedor = some rep →
      (U32MAX < rep.como_vendedor.1 + puntos ∨ U32MAX < rep.como_vendedor.2 + 1) →
      (s._calificar_vendedor caller oid puntos).1 =
        Except.error Error.IdOverflow) ∧
    (caller = orden.vendedor → orden.estado = Estado.Recibido →
      1 ≤ puntos → puntos ≤ 5 →
      (getCalif s.calificaciones oid).vendedor_califico = false →
      s.reputaciones orden.comprador = some rep →
      (U32MAX < rep.como_comprador.1 + puntos ∨ U32MAX < rep.como_comprador.2 + 1) →
      (s._calificar_comprador caller oid puntos).1 =
        Except.error Error.IdOverflow) := by
  constructor
  · intro hcall hrec h1 h5 hflag hrep hov
    rcases hov with hov | hov
    · simp [Marketplace._calificar_vendedor, ho, hcall, hrec, h1, h5, hflag,
        getRep, hrep, checked_add_none _ _ hov]
    · by_cases hsum : rep.como_vendedor.1 + puntos ≤ U32MAX
      · simp [Marketplace._calificar_vendedor, ho, hcall, hrec, h1, h5, hflag,
          getRep, hrep, checked_add_some _ _ hsum, checked_add_none _ _ hov]
      · simp [Marketplace._calificar_vendedor, ho, hcall, hrec, h1, h5, hflag,
          getRep, hrep, checked_add_none _ _ (not_le.mp hsum)]
  · intro hcall hrec h1 h5 hflag hrep hov
    rcases hov with hov | hov
    · simp [Marketplace._calificar_comprador, ho, hcall, hrec, h1, h5, hflag,
        getRep, hrep, checked_add_none _ _ hov]
    · by_cases hsum : rep.como_comprador.1 + puntos ≤ U32MAX
      · simp [Marketplace._calificar_comprador, ho, hcall, hrec, h1, h5, hflag,
          getRep, hrep, checked_add_some _ _ hsum, checked_add_none _ _ hov]
      · simp [Marketplace._calificar_comprador, ho, hcall, hrec, h1, h5, hflag,
          getRep, hrep, checked_add_none _ _ (not_le.mp hsum)]

/-- C8 witness: the concrete overflowing rating fails with `IdOverflow`. -/
theorem C8_rating_overflow_error_witness :
    (sC8._calificar_vendedor 2 1 5).1 = Except.error Error.IdOverflow :=
  (C8_rating_overflow_error sC8 2 1 5 ordRecibida repAlta rfl).1 rfl rfl
    (by decide) (by decide) rfl rfl (Or.inl (by decide))

/-- C5 witness: concrete unilateral buyer cancellation of a pending order. -/
theorem C5_solicitar_fast_path_witness :
    (sC10._solicitar_cancelacion 2 1).1 = Except.ok () ∧
    (sC10._solicitar_cancelacion 2 1).2.ordenes 1 =
      some { ordPend with estado := Estado.Cancelada } ∧
    (sC10._solicitar_cancelacion 2 1).2.cancelaciones_pendientes 1 = none := by
  have h := (C5_solicitar_fast_path sC10 2 1 ordPend cexProd rfl rfl rfl rfl).1
    (by decide)
  exact ⟨h.1, h.2.2.1, h.2.2.2⟩

/-- C2: the exact-payment law of the escrow iteration.  Given a registered
buyer, an existing listing not their own, a positive quantity within stock,
and a non-saturated order counter, the purchase succeeds if and only if the
tendered amount equals `precio * cant` exactly; under-payment fails with
`PagoInsuficiente` and over-payment with `PagoExcesivo`, in both cases
returning the starting state unchanged (nothing partially accepted or
refunded). -/
theorem C2_exact_payment (s : MarketplaceE) (comprador : AccountId)
    (id_prod cant monto : Nat) (rol : Rol) (producto : Producto)
    (hrol : s.roles comprador = some rol) (hc : rol.es_comprador = true)
    (hcant : 0 < cant) (hprod : s.productos id_prod = some producto)
    (hself : producto.vendedor ≠ comprador) (hstock : cant ≤ producto.stock)
    (hid : s.next_order_id + 1 ≤ U32MAX) :
    ((∃ oid, (s.comprarE comprador id_prod cant monto).1 = Except.ok oid) ↔
      monto = producto.precio * cant) ∧
    (monto < producto.precio * cant →
      s.comprarE comprador id_prod cant monto =
        (Except.error ErrorE.PagoInsuficiente, s)) ∧
    (producto.precio * cant < monto →
      s.comprarE comprador id_prod cant monto =
        (Except.error ErrorE.PagoExcesivo, s)) := by
  refine ⟨⟨?_, ?_⟩, ?_, ?_⟩
  · rintro ⟨oid, hoid⟩
    rcases lt_trichotomy monto (producto.precio * cant) with hlt | heqq | hgt
    · simp [MarketplaceE.comprarE, hrol, hc, hcant.ne', hprod, hself,
        not_lt.mpr hstock, hlt] at hoid
    · exact heqq
    · simp [MarketplaceE.comprarE, hrol, hc, hcant.ne', hprod, hself,
        not_lt.mpr hstock, not_lt.mpr hgt.le, hgt] at hoid
  · intro heqq
    refine ⟨s.next_order_id, ?_⟩
    simp [MarketplaceE.comprarE, hrol, hc, hcant.ne', hprod, hself,
      not_lt.mpr hstock, heqq, checked_sub, hstock,
      checked_add_some _ _ hid]
  · intro hlt
    simp [MarketplaceE.comprarE, hrol, hc, hcant.ne', hprod, hself,
      not_lt.mpr hstock, hlt]
  · intro hgt
    simp [MarketplaceE.comprarE, hrol, hc, hcant.ne', hprod, hself,
      not_lt.mpr hstock, not_lt.mpr hgt.le, hgt]

/-- Escrow-iteration state with seller 1's listing and registered buyer 2. -/
def sC2 : MarketplaceE :=
  { MarketplaceE.new with
    roles := fun a =>
      if a = 1 then some Rol.Vendedor
      else if a = 2 then some Rol.Comprador else none
    productos := fun p => if p = 1 then some cexProd else none
    next_prod_id := 2 }

/-- C2 witness: price 100, quantity 3 — only 300 succeeds; 299 fails
`PagoInsuficiente` and 301 fails `PagoExcesivo`. -/
theorem C2_exact_payment_witness :
    (∃ oid, (sC2.comprarE 2 1 3 300).1 = Except.ok oid) ∧
    (sC2.comprarE 2 1 3 299).1 = Except.error ErrorE.PagoInsuficiente ∧
    (sC2.comprarE 2 1 3 301).1 = Except.error ErrorE.PagoExcesivo := by
  have h300 := C2_exact_payment sC2 2 1 3 300 Rol.Comprador cexProd rfl rfl
    (by decide) rfl (by decide) (by decide) (by decide)
  have h299 := C2_exact_payment sC2 2 1 3 299 Rol.Comprador cexProd rfl rfl
    (by decide) rfl (by decide) (by decide) (by decide)
  have h301 := C2_exact_payment sC2 2 1 3 301 Rol.Comprador cexProd rfl rfl
    (by decide) rfl (by decide) (by decide) (by decide)
  refine ⟨h300.1.mpr (by decide), ?_, ?_⟩
  · rw [h299.2.1 (by decide)]
  · rw [h301.2.2 (by decide)]

/-- Conservation is trivial when listings, orders and the counter are
untouched. -/
theorem conserve_congr (s t : Marketplace) (hp : t.productos = s.productos)
    (ho : t.ordenes = s.ordenes) (hn : t.next_order_id = s.next_order_id)
    (hf : OrdersFresh s) :
    OrdersFresh t ∧
      ∀ pid, stockOf t pid + reservedQty t pid =
        stockOf s pid + reservedQty s pid := by
  constructor
  · intro k hk
    rw [ho]
    exact hf k (hn ▸ hk)
  · intro pid
    have h1 : stockOf t pid = stockOf s pid := by unfold stockOf; rw [hp]
    have h2 : reservedQty t pid = reservedQty s pid := by
      unfold reservedQty
      rw [hn]
      refine Finset.sum_congr rfl fun k _ => ?_
      unfold qtyAt
      rw [ho]
    rw [h1, h2]

/-- Cancelling an order (its state goes to `Cancelada` and its quantity is
added back to its listing's stock) conserves stock + reserved quantity. -/
theorem cancel_conserve (s s2 : Marketplace) (oid : Nat) (orden : Orden)
    (producto : Producto)
    (ho : s.ordenes oid = some orden) (hne : orden.estado ≠ Estado.Cancelada)
    (hprod : s.productos orden.id_prod = some producto)
    (hp2 : s2.productos = mput s.productos orden.id_prod
      { producto with stock := producto.stock + orden.cantidad })
    (ho2 : s2.ordenes = mput s.ordenes oid { orden with estado := Estado.Cancelada })
    (hn2 : s2.next_order_id = s.next_order_id)
    (hf : OrdersFresh s) :
    OrdersFresh s2 ∧
      ∀ pid, stockOf s2 pid + reservedQty s2 pid =
        stockOf s pid + reservedQty s pid := by
  have hoid_lt : oid < s.next_order_id := by
    by_contra hcon
    have h0 := hf oid (not_lt.mp hcon)
    rw [ho] at h0
    exact Option.noConfusion h0
  constructor
  · intro k hk
    rw [hn2] at hk
    rw [ho2, mput_ne _ _ _ _ (by omega : k ≠ oid)]
    exact hf k hk
  · intro pid
    have hmem : oid ∈ Finset.range s.next_order_id := Finset.mem_range.mpr hoid_lt
    have hsum2 : reservedQty s2 pid =
        qtyAt s2 pid oid + ((Finset.range s.next_order_id).erase oid).sum
          (qtyAt s2 pid) := by
      unfold reservedQty
      rw [hn2]
      exact (Finset.add_sum_erase _ _ hmem).symm
    have hsum1 : reservedQty s pid =
        qtyAt s pid oid + ((Finset.range s.next_order_id).erase oid).sum
          (qtyAt s pid) := by
      unfold reservedQty
      exact (Finset.add_sum_erase _ _ hmem).symm
    have hrest : ((Finset.range s.next_order_id).erase oid).sum (qtyAt s2 pid) =
        ((Finset.range s.next_order_id).erase oid).sum (qtyAt s pid) := by
      refine Finset.sum_congr rfl fun k hk => ?_
      unfold qtyAt
      rw [ho2, mput_ne _ _ _ _ (Finset.ne_of_mem_erase hk)]
    have hq2 : qtyAt s2 pid oid = 0 := by
      unfold qtyAt
      rw [ho2, mput_same]
      simp
    by_cases hpid : pid = orden.id_prod
    · subst hpid
      have hq1 : qtyAt s orden.id_prod oid = orden.cantidad := by
        unfold qtyAt
        rw [ho]
        simp [hne]
      have hst2 : stockOf s2 orden.id_prod = producto.stock + orden.cantidad := by
        unfold stockOf
        rw [hp2, mput_same]
      have hst1 : stockOf s orden.id_prod = producto.stock := by
        unfold stockOf
        rw [hprod]
      rw [hsum2, hsum1, hrest, hq2, hq1, hst2, hst1]
      omega
    · have hq1 : qtyAt s pid oid = 0 := by
        unfold qtyAt
        rw [ho]
        simp [Ne.symm hpid]
      have hst : stockOf s2 pid = stockOf s pid := by
        unfold stockOf
        rw [hp2, mput_ne _ _ _ _ hpid]
      rw [hsum2, hsum1, hrest, hq2, hq1, hst]

/-- A successful purchase (stock decremented by the bought quantity, a fresh
`Pendiente` order appended) conserves stock + reserved quantity. -/
theorem comprar_conserve (s s2 : Marketplace) (c : AccountId) (pid0 cant : Nat)
    (producto : Producto)
    (hprod : s.productos pid0 = some producto) (hcant : cant ≤ producto.stock)
    (hp2 : s2.productos = mput s.productos pid0
      { producto with stock := producto.stock - cant })
    (ho2 : s2.ordenes = mput s.ordenes s.next_order_id
      { comprador := c, vendedor := producto.vendedor, id_prod := pid0
        cantidad := cant, estado := Estado.Pendiente })
    (hn2 : s2.next_order_id = s.next_order_id + 1)
    (hf : OrdersFresh s) :
    OrdersFresh s2 ∧
      ∀ pid, stockOf s2 pid + reservedQty s2 pid =
        stockOf s pid + reservedQty s pid := by
  constructor
  · intro k hk
    rw [hn2] at hk
    rw [ho2, mput_ne _ _ _ _ (by omega : k ≠ s.next_order_id)]
    exact hf k (by omega)
  · intro pid
    have hsum2 : reservedQty s2 pid =
        (Finset.range s.next_order_id).sum (qtyAt s2 pid) +
          qtyAt s2 pid s.next_order_id := by
      unfold reservedQty
      rw [hn2]
      exact Finset.sum_range_succ _ _
    have hrest : (Finset.range s.next_order_id).sum (qtyAt s2 pid) =
        reservedQty s pid := by
      unfold reservedQty
      refine Finset.sum_congr rfl fun k hk => ?_
      unfold qtyAt
      rw [ho2, mput_ne _ _ _ _ (by
        have := Finset.mem_range.mp hk
        omega : k ≠ s.next_order_id)]
    by_cases hpid : pid = pid0
    · subst hpid
      have hqn : qtyAt s2 pid s.next_order_id = cant := by
        unfold qtyAt
        rw [ho2, mput_same]
        simp
      have hst2 : stockOf s2 pid = producto.stock - cant := by
        unfold stockOf
        rw [hp2, mput_same]
      have hst1 : stockOf s pid = producto.stock := by
        unfold stockOf
        rw [hprod]
      rw [hsum2, hrest, hqn, hst2, hst1]
      omega
    · have hqn : qtyAt s2 pid s.next_order_id = 0 := by
        unfold qtyAt
        rw [ho2, mput_same]
        simp [Ne.symm hpid]
      have hst : stockOf s2 pid = stockOf s pid := by
        unfold stockOf
        rw [hp2, mput_ne _ _ _ _ hpid]
      rw [hsum2, hrest, hqn, hst]
      omega

/-- Inversion of a successful `_comprar`. -/
theorem comprar_ok_inv (s : Marketplace) (c : AccountId) (pid0 cant oid : Nat)
    (s2 : Marketplace) (h : s._comprar c pid0 cant = (Except.ok oid, s2)) :
    ∃ producto, s.productos pid0 = some producto ∧ cant ≤ producto.stock ∧
      oid = s.next_order_id ∧
      s2 = { s with
        productos := mput s.productos pid0
          { producto with stock := producto.stock - cant }
        ordenes := mput s.ordenes s.next_order_id
          { comprador := c, vendedor := producto.vendedor, id_prod := pid0
            cantidad := cant, estado := Estado.Pendiente }
        next_order_id := s.next_order_id + 1
        calificaciones := mput s.calificaciones s.next_order_id
          { comprador_califico := false, vendedor_califico := false } } := by
  unfold Marketplace._comprar at h
  rcases hrol : s.roles c with _ | rol
  · simp [hrol] at h
  by_cases hrc : rol.es_comprador = false
  · simp [hrol, hrc] at h
  by_cases hcant : cant = 0
  · simp [hrol, hrc, hcant] at h
  rcases hprod : s.productos pid0 with _ | producto
  · simp [hrol, hrc, hcant, hprod] at h
  by_cases hself : producto.vendedor = c
  · simp [hrol, hrc, hcant, hprod, hself] at h
  by_cases hstock : producto.stock < cant
  · simp [hrol, hrc, hcant, hprod, hself, hstock] at h
  rcases hsub : checked_sub producto.stock cant with _ | nuevo
  · simp [hrol, hrc, hcant, hprod, hself, hstock, hsub] at h
  rcases hadd : checked_add s.next_order_id 1 with _ | nid
  · simp [hrol, hrc, hcant, hprod, hself, hstock, hsub, hadd] at h
  obtain ⟨hsub1, hsub2⟩ := checked_sub_some_inv _ _ _ hsub
  obtain ⟨hadd1, hadd2⟩ := checked_add_some_inv _ _ _ hadd
  simp [hrol, hrc, hcant, hprod, hself, hstock, hsub, hadd, Prod.mk.injEq,
    Except.ok.injEq] at h
  exact ⟨producto, rfl, hsub1, h.1.symm, by rw [← h.2, hsub2, hadd2]⟩

/-- Inversion of a successful `_solicitar_cancelacion`: either the buyer's
unilateral fast path cancelled the pending order, or a request was filed. -/
theorem solicitar_ok_inv (s : Marketplace) (c : AccountId) (oid : Nat)
    (s2 : Marketplace) (h : s._solicitar_cancelacion c oid = (Except.ok (), s2)) :
    ∃ orden, s.ordenes oid = some orden ∧ orden.estado ≠ Estado.Cancelada ∧
      ((∃ producto, s.productos orden.id_prod = some producto ∧
          s2 = { s with
            productos := mput s.productos orden.id_prod
              { producto with stock := producto.stock + orden.cantidad }
            ordenes := mput s.ordenes oid { orden with estado := Estado.Cancelada }
            cancelaciones_pendientes := mdel s.cancelaciones_pendientes oid }) ∨
        s2 = { s with
          cancelaciones_pendientes := mput s.cancelaciones_pendientes oid
            { oid := oid, solicitante := c } }) := by
  unfold Marketplace._solicitar_cancelacion at h
  rcases ho : s.ordenes oid with _ | orden
  · simp [ho] at h
  by_cases hcanc : orden.estado = Estado.Cancelada
  · simp [ho, hcanc] at h
  by_cases hperm : c = orden.comprador ∨ c = orden.vendedor
  swap
  · simp [ho, hcanc, hperm] at h
  by_cases hpe : orden.estado = Estado.Pendiente ∨ orden.estado = Estado.Enviado
  swap
  · simp [ho, hcanc, hperm, hpe] at h
  by_cases hfp : orden.estado = Estado.Pendiente ∧ c = orden.comprador
  · rcases hprod : s.productos orden.id_prod with _ | producto
    · simp [ho, hcanc, hperm, hpe, hfp, hprod] at h
    rcases hadd : checked_add producto.stock orden.cantidad with _ | nuevo
    · simp [ho, hcanc, hperm, hpe, hfp, hprod, hadd] at h
    obtain ⟨hadd1, hadd2⟩ := checked_add_some_inv _ _ _ hadd
    simp [ho, hcanc, hperm, hpe, hfp, hprod, hadd, Prod.mk.injEq] at h
    refine ⟨orden, rfl, hcanc, Or.inl ⟨producto, hprod, ?_⟩⟩
    rw [← h, hadd2]
  · by_cases hpend : (s.cancelaciones_pendientes oid).isSome = true
    · simp [ho, hcanc, hperm, hpe, hfp, hpend] at h
    simp [ho, hcanc, hperm, hpe, hfp, hpend, Prod.mk.injEq] at h
    exact ⟨orden, rfl, hcanc, Or.inr h.symm⟩

/-- Inversion of a successful `_aceptar_cancelacion`. -/
theorem aceptar_ok_inv (s : Marketplace) (c : AccountId) (oid : Nat)
    (s2 : Marketplace) (h : s._aceptar_cancelacion c oid = (Except.ok (), s2)) :
    ∃ orden producto, s.ordenes oid = some orden ∧
      orden.estado ≠ Estado.Cancelada ∧
      s.productos orden.id_prod = some producto ∧
      s2 = { s with
        productos := mput s.productos orden.id_prod
          { producto with stock := producto.stock + orden.cantidad }
        ordenes := mput s.ordenes oid { orden with estado := Estado.Cancelada }
        cancelaciones_pendientes := mdel s.cancelaciones_pendientes oid } := by
  unfold Marketplace._aceptar_cancelacion at h
  rcases hcp : s.cancelaciones_pendientes oid with _ | canc
  · simp [hcp] at h
  rcases ho : s.ordenes oid with _ | orden
  · simp [hcp, ho] at h
  by_cases hcanc : orden.estado = Estado.Cancelada
  · simp [hcp, ho, hcanc] at h
  by_cases hpe : orden.estado = Estado.Pendiente ∨ orden.estado = Estado.Enviado
  swap
  · simp [hcp, ho, hcanc, hpe] at h
  by_cases hsol : c = canc.solicitante
  · simp [hcp, ho, hcanc, hpe, hsol] at h
  by_cases hotro : es_otro_participante c orden canc.solicitante
  swap
  · simp [hcp, ho, hcanc, hpe, hsol, hotro] at h
  rcases hprod : s.productos orden.id_prod with _ | producto
  · simp [hcp, ho, hcanc, hpe, hsol, hotro, hprod] at h
  rcases hadd : checked_add producto.stock orden.cantidad with _ | nuevo
  · simp [hcp, ho, hcanc, hpe, hsol, hotro, hprod, hadd] at h
  obtain ⟨hadd1, hadd2⟩ := checked_add_some_inv _ _ _ hadd
  simp [hcp, ho, hcanc, hpe, hsol, hotro, hprod, hadd, Prod.mk.injEq] at h
  refine ⟨orden, producto, rfl, hcanc, hprod, ?_⟩
  rw [← h, hadd2]

/-- Every single successful purchase/cancellation step conserves
stock + reserved quantity on every listing. -/
theorem cstep_conserve (s s2 : Marketplace) (hstep : CStep s s2)
    (hf : OrdersFresh s) :
    OrdersFresh s2 ∧
      ∀ pid, stockOf s2 pid + reservedQty s2 pid =
        stockOf s pid + reservedQty s pid := by
  cases hstep with
  | comprar a1 a2 a3 a4 a5 h =>
    obtain ⟨producto, hprod, hcant, hoid, hs2⟩ := comprar_ok_inv _ _ _ _ _ _ h
    subst hs2
    exact comprar_conserve s _ _ _ _ producto hprod hcant rfl rfl rfl hf
  | solicitar a1 a2 a3 h =>
    obtain ⟨orden, ho, hcanc, hcase⟩ := solicitar_ok_inv _ _ _ _ h
    rcases hcase with ⟨producto, hprod, hs2⟩ | hs2
    · subst hs2
      exact cancel_conserve s _ _ orden producto ho hcanc hprod rfl rfl rfl hf
    · subst hs2
      exact conserve_congr s _ rfl rfl rfl hf
  | aceptar a1 a2 a3 h =>
    obtain ⟨orden, producto, ho, hcanc, hprod, hs2⟩ := aceptar_ok_inv _ _ _ _ h
    subst hs2
    exact cancel_conserve s _ _ orden producto ho hcanc hprod rfl rfl rfl hf

/-- C4: along any sequence of successful purchase and cancellation
operations (unilateral buyer cancel or accepted negotiated cancel), each
listing's stock plus the total quantity reserved by its non-cancelled
orders is invariant; equivalently, `stock_now = stock_initial − Σ(quantity
of non-cancelled orders)` whenever the initial state reserved nothing, and
each cancellation adds back exactly the quantity the cancelled order
reserved.  The freshness hypothesis (no order stored at or above the id
counter) holds in every reachable state and is preserved. -/
theorem C4_stock_conservation (s s2 : Marketplace)
    (hf : OrdersFresh s)
    (hsteps : Relation.ReflTransGen CStep s s2) :
    OrdersFresh s2 ∧
      ∀ pid, stockOf s2 pid + reservedQty s2 pid =
        stockOf s pid + reservedQty s pid := by
  induction hsteps with
  | refl => exact ⟨hf, fun pid => rfl⟩
  | tail hab hbc ih =>
    obtain ⟨hfb, hcons⟩ := ih
    obtain ⟨hfc, hcons2⟩ := cstep_conserve _ _ hbc hfb
    exact ⟨hfc, fun pid => by rw [hcons2 pid, hcons pid]⟩

/-- Fresh marketplace with seller 1's listing and registered buyer 2, for
the C4 witness. -/
def sC4 : Marketplace :=
  { Marketplace.new with
    roles := fun a =>
      if a = 1 then some Rol.Vendedor
      else if a = 2 then some Rol.Comprador else none
    productos := fun p => if p = 1 then some cexProd else none
    next_prod_id := 2 }

/-- C4 witness: one concrete successful purchase conserves
stock + reserved quantity on listing 1. -/
theorem C4_stock_conservation_witness :
    stockOf (sC4._comprar 2 1 3).2 1 + reservedQty (sC4._comprar 2 1 3).2 1 =
      stockOf sC4 1 + reservedQty sC4 1 :=
  (C4_stock_conservation sC4 (sC4._comprar 2 1 3).2 (fun _ _ => rfl)
    (Relation.ReflTransGen.single (CStep.comprar sC4 2 1 3 1 _ rfl))).2 1

/-- C3: in every state of the escrow iteration reachable from the fresh
contract by the public operations, an escrow entry for an order id exists
if and only if that order exists and is `Pendiente` or `Enviado`, and while
it exists it holds exactly the order's `monto_total` (the total fixed at
purchase as unit price times quantity); the entry is therefore present from
the purchase on and removed exactly once, by whichever single transition —
receipt releasing to the seller, accepted or unilateral cancellation
refunding the buyer — resolves the order. -/
theorem C3_escrow_iff_active (s : MarketplaceE) (hs : ReachableE s) (oid : Nat) :
    ((∃ m, s.fondos_retenidos oid = some m) ↔
      ∃ o, s.ordenes oid = some o ∧
        (o.estado = Estado.Pendiente ∨ o.estado = Estado.Enviado)) ∧
    ∀ o, s.ordenes oid = some o →
      (o.estado = Estado.Pendiente ∨ o.estado = Estado.Enviado) →
      s.fondos_retenidos oid = some o.monto_total := by
  have hinv := escrowInv_reachable s hs
  have hf := hinv.2 oid
  unfold FondosOk at hf
  constructor
  · constructor
    · rintro ⟨m, hm⟩
      rcases ho : s.ordenes oid with _ | o
      · rw [ho] at hf
        simp at hf
        rw [hf] at hm
        exact absurd hm (by simp)
      · rw [ho] at hf
        by_cases hpe : o.estado = Estado.Pendiente ∨ o.estado = Estado.Enviado
        · exact ⟨o, rfl, hpe⟩
        · simp only [hpe, if_false, ite_false, if_neg hpe] at hf
          rw [hf] at hm
          exact absurd hm (by simp)
    · rintro ⟨o, ho, hpe⟩
      rw [ho] at hf
      simp only [if_pos hpe] at hf
      exact ⟨o.monto_total, hf⟩
  · intro o ho hpe
    rw [ho] at hf
    simp only [if_pos hpe] at hf
    exact hf

/-- A short reachable history: seller 1 and buyer 2 register, seller 1
publishes listing 1 (price 100, stock 10), buyer 2 buys 3 units for 300. -/
def sC3 : MarketplaceE :=
  ((((MarketplaceE.new.registrarE 1 Rol.Vendedor).2.registrarE 2
    Rol.Comprador).2.publicarE 1 "p" "d" 100 10 "c").2.comprarE 2 1 3 300).2

/-- C3 witness: after the concrete purchase, the escrow invariant applied to
the reached state yields that order 1's escrow entry holds exactly its
total of 300. -/
theorem C3_escrow_iff_active_witness :
    sC3.fondos_retenidos 1 = some 300 := by
  have hr : ReachableE sC3 :=
    ReachableE.comprar _ 2 1 3 300
      (ReachableE.publicar _ 1 "p" "d" 100 10 "c"
        (ReachableE.registrar _ 2 Rol.Comprador
          (ReachableE.registrar _ 1 Rol.Vendedor ReachableE.init)))
  have ho : sC3.ordenes 1 =
      some { comprador := 2, vendedor := 1, id_prod := 1, cantidad := 3
             estado := Estado.Pendiente, monto_total := 300 } := rfl
  exact (C3_escrow_iff_active sC3 hr 1).2 _ ho (Or.inl rfl)

end Claims

end Agora
